import Mathlib

/-! BlogPost backend: the post, comment, auth and upload controllers.

A shallow embedding of `backend/src/controllers/post.controller.js`,
`comment.controller.js`, `auth.controller.js` and `upload.controller.js`, with the
properties the specification states about them.

* A JavaScript string is the list of its UTF-16 code units.
* The document store is an explicit value threaded through every handler:
  a handler takes the store and the request and returns the response
  together with the store it leaves behind.
* Object ids are natural numbers; a handler receives an id that parses as one.
* `bcrypt.hash`, `bcrypt.compare`, the token signer and the image host's upload are
  collaborators outside the repository; the handlers take them as parameters.
* `String.prototype.toLowerCase` is a builtin of the runtime; the handlers
  take it as the parameter `toLowerCase`, and every statement that does not
  name a concrete title holds for every such function.
-/

namespace BlogPost

/-! ## JavaScript strings -/

/-- A JavaScript string: its UTF-16 code units, in order. -/
abbrev JSString := List Nat

/-- The code units of a Lean string literal (exact for the Basic Multilingual Plane). -/
def ofString (s : String) : JSString := s.toList.map Char.toNat

/-- The code unit of `-`, the separator written by `generateSlug`. -/
def hyphen : Nat := 45

/-- The character class `[a-z0-9]` of the first regular expression of `generateSlug`. -/
def isLowerAlnum (c : Nat) : Bool := (97 ≤ c && c ≤ 122) || (48 ≤ c && c ≤ 57)

/-- The code units `String.prototype.trim` strips: ECMAScript WhiteSpace and LineTerminator. -/
def isTrimmed (c : Nat) : Bool :=
  c == 9 || c == 10 || c == 11 || c == 12 || c == 13 || c == 32 || c == 160 ||
  c == 5760 || (8192 ≤ c && c ≤ 8202) || c == 8232 || c == 8233 || c == 8239 ||
  c == 8287 || c == 12288 || c == 65279

/-- `String.prototype.trim`: white space is removed from both ends. -/
def trim (s : JSString) : JSString := (s.dropWhile isTrimmed).rdropWhile isTrimmed

/-- `.replace(/[^a-z0-9]+/g, "-")`: a left-to-right scan in which every maximal run of
code units outside `[a-z0-9]` becomes one `-`. The flag is true while the scan is inside
a run whose `-` has already been written. -/
def replaceRuns : Bool → JSString → JSString
  | _, [] => []
  | inRun, c :: cs =>
    if isLowerAlnum c then c :: replaceRuns false cs
    else if inRun then replaceRuns true cs
    else hyphen :: replaceRuns true cs

/-- `.replace(/^-+|-+$/g, "")`: the run of `-` at the start and the run at the end are removed. -/
def stripHyphens (s : JSString) : JSString :=
  (s.dropWhile (· == hyphen)).rdropWhile (· == hyphen)

/-- `generateSlug` of post.controller.js:
`title.toLowerCase().trim().replace(/[^a-z0-9]+/g, "-").replace(/^-+|-+$/g, "")`. -/
def generateSlug (toLowerCase : JSString → JSString) (title : JSString) : JSString :=
  stripHyphens (replaceRuns false (trim (toLowerCase title)))

/-- Lower-casing of the ASCII letters `A`-`Z`; `toLowerCase` agrees with it on ASCII text. -/
def asciiToLowerCase (s : JSString) : JSString :=
  s.map (fun c => if 65 ≤ c ∧ c ≤ 90 then c + 32 else c)

/-- A code unit a slug may contain: `a`-`z`, `0`-`9` or `-`. -/
def isSlugUnit (c : Nat) : Prop := (97 ≤ c ∧ c ≤ 122) ∨ (48 ≤ c ∧ c ≤ 57) ∨ c = 45

/-- No two neighbouring code units are both `-`. -/
def NoDoubleHyphen (s : JSString) : Prop :=
  List.Chain' (fun a b => ¬ (a = hyphen ∧ b = hyphen)) s

/-! ## Documents and stores -/

/-- Modelled from the spec: `models/Post.js` is not among the sources. The fields are those
of the Post entity of the data model (section 3) that the controllers read and write;
object ids are natural numbers, `author`, `likes` and `dislikes` hold user ids, and the
two reaction arrays are kept in array order. -/
structure Post where
  _id : Nat
  title : JSString
  slug : JSString
  content : JSString
  coverImage : JSString
  author : Nat
  tags : List JSString
  isPublished : Bool
  views : Nat
  likes : List Nat
  dislikes : List Nat
  deriving DecidableEq, Repr

/-- Modelled from the spec: `models/Comment.js` is not among the sources. A comment refers
to its parent post and to the user who wrote it. -/
structure Comment where
  _id : Nat
  post : Nat
  user : Nat
  content : JSString
  deriving DecidableEq, Repr

/-- The role enumeration of `models/User.js`. -/
inductive Role where
  | author
  | admin
  | reader
  deriving DecidableEq, Repr

/-- The authenticated user the auth middleware attaches as `req.user`. -/
structure AuthUser where
  _id : Nat
  role : Role
  deriving DecidableEq, Repr

/-- The posts collection, in the store's natural order. -/
abbrev PostStore := List Post

/-- The comments collection. -/
abbrev CommentStore := List Comment

/-- `Post.findById(id)`. -/
def findById (store : PostStore) (id : Nat) : Option Post :=
  store.find? (fun p => p._id == id)

/-- `Post.findOne({ slug })`. -/
def findOneBySlug (store : PostStore) (slug : JSString) : Option Post :=
  store.find? (fun p => p.slug == slug)

/-- `Post.findOne({ slug, isPublished: true })`. -/
def findOnePublished (store : PostStore) (slug : JSString) : Option Post :=
  store.find? (fun p => p.slug == slug && p.isPublished)

/-- `post.save()`: the stored document with the id of `post` is replaced by `post`. -/
def save (store : PostStore) (post : Post) : PostStore :=
  store.map (fun q => if q._id == post._id then post else q)

/-- `post.deleteOne()`: the stored document with the id of `post` is removed. -/
def deleteOne (store : PostStore) (post : Post) : PostStore :=
  store.filter (fun q => q._id != post._id)

/-- `Comment.findById(id)`. -/
def findCommentById (store : CommentStore) (id : Nat) : Option Comment :=
  store.find? (fun c => c._id == id)

/-- `comment.deleteOne()`. -/
def deleteOneComment (store : CommentStore) (comment : Comment) : CommentStore :=
  store.filter (fun c => c._id != comment._id)

/-! ## Requests and responses -/

/-- The fields `createPost` and `updatePost` destructure from `req.body`; `none` is a
field that is absent from the request (`undefined`). -/
structure PostBody where
  title : Option JSString
  content : Option JSString
  coverImage : Option JSString
  tags : Option (List JSString)
  isPublished : Option Bool
  deriving DecidableEq, Repr

/-- The `pagination` object of the `getAllPosts` response. -/
structure Pagination where
  currentPage : Int
  totalPages : Int
  totalPosts : Nat
  hasNextPage : Bool
  hasPrevPage : Bool
  deriving DecidableEq, Repr

/-- The JSON bodies the handlers send. -/
inductive Body where
  | message (text : String)
  | post (doc : Post)
  | posts (docs : List Post) (pagination : Pagination)
  | reaction (text : String) (likes dislikes : Nat) (isLiked isDisliked : Bool)
  deriving DecidableEq, Repr

/-- A response: `res.status(status).json(body)`. -/
structure Response where
  status : Nat
  body : Body
  deriving DecidableEq, Repr

/-- JavaScript truthiness of a string-valued field: `undefined` and `""` are falsy. -/
def truthy (field : Option JSString) : Bool :=
  match field with
  | none => false
  | some s => !s.isEmpty

/-- The operand chain `value || stored` on a string-valued field. -/
def orElseStored (field : Option JSString) (stored : JSString) : JSString :=
  match field with
  | none => stored
  | some s => if s.isEmpty then stored else s

/-- The test `!field || field.trim() === ""` of `createPost` and `createComment`. -/
def isBlank (field : Option JSString) : Bool :=
  match field with
  | none => true
  | some s => s.isEmpty || (trim s).isEmpty

/-! ## The post controller -/

/-- `createPost`. `newId` is the object id `Post.create` assigns and `defaultPublished` the
schema default taken when `isPublished` is absent; a new document starts with no views and
no reactions. -/
def createPost (toLowerCase : JSString → JSString) (newId : Nat) (defaultPublished : Bool)
    (store : PostStore) (user : AuthUser) (body : PostBody) : Response × PostStore :=
  if isBlank body.title || isBlank body.content then
    (⟨400, .message "Title and content are required"⟩, store)
  else
    let title := body.title.getD []
    let slug := generateSlug toLowerCase title
    match findOneBySlug store slug with
    | some _ => (⟨400, .message "Post with this title already exists"⟩, store)
    | none =>
      let newPost : Post :=
        { _id := newId
          title := title
          slug := slug
          content := body.content.getD []
          coverImage := orElseStored body.coverImage []
          author := user._id
          tags := body.tags.getD []
          isPublished := body.isPublished.getD defaultPublished
          views := 0
          likes := []
          dislikes := [] }
      (⟨201, .post newPost⟩, store ++ [newPost])

/-- The query of `getAllPosts` after `parseInt`: `none` in `page` or `limit` is `NaN`. -/
structure ListQuery where
  page : Option Int
  limit : Option Int
  search : Option JSString
  tag : Option JSString
  sortBy : Option JSString
  order : Option JSString
  deriving DecidableEq, Repr

/-- The operand chain `parseInt(x) || fallback`: `NaN` and `0` are falsy. -/
def parsedOr (parsed : Option Int) (fallback : Int) : Int :=
  match parsed with
  | none => fallback
  | some n => if n = 0 then fallback else n

/-- The filter `getAllPosts` builds. `regexTest pattern text` stands for the store's
case-insensitive `$regex` match. -/
def matchesFilter (regexTest : JSString → JSString → Bool) (query : ListQuery) (p : Post) : Bool :=
  p.isPublished &&
  (!truthy query.search ||
    regexTest (query.search.getD []) p.title || regexTest (query.search.getD []) p.content) &&
  (!truthy query.tag || p.tags.contains (query.tag.getD []))

/-- The pagination arithmetic of `getAllPosts`, with `Math.ceil(total / limit)` taken over
the rationals. -/
def paginate (page limit : Int) (total : Nat) : Pagination :=
  { currentPage := page
    totalPages := Int.ceil ((total : ℚ) / (limit : ℚ))
    totalPosts := total
    hasNextPage := decide (page < Int.ceil ((total : ℚ) / (limit : ℚ)))
    hasPrevPage := decide (page > 1) }

/-- `getAllPosts`. `sortPosts field order` stands for the store's `.sort({ [field]: order })`;
`.skip` and `.limit` are `drop` and `take`, which covers the non-negative values the
store accepts. -/
def getAllPosts (regexTest : JSString → JSString → Bool)
    (sortPosts : JSString → Int → List Post → List Post)
    (store : PostStore) (query : ListQuery) : Response × PostStore :=
  let page := parsedOr query.page 1
  let limit := parsedOr query.limit 10
  let sortBy := orElseStored query.sortBy (ofString "createdAt")
  let order : Int := if query.order = some (ofString "asc") then 1 else -1
  let skip := (page - 1) * limit
  let found := store.filter (matchesFilter regexTest query)
  let total := found.length
  let posts := ((sortPosts sortBy order found).drop skip.toNat).take limit.toNat
  (⟨200, .posts posts (paginate page limit total)⟩, store)

/-- The operator `++` on a JavaScript number that holds a non-negative integer: the
double-precision sum with 1, rounded to nearest with ties to even. The sum is exact below
2^53. From 2^53 to 2^54 the numbers are the even integers, `x + 1` lies half-way between
two of them and goes to the one with the even significand: `x` when `x / 2` is even,
`x + 2` when it is odd. From 2^54 on, 1 is less than half the spacing and `x` stays. -/
def incrementNumber (x : Nat) : Nat :=
  if x < 9007199254740992 then x + 1
  else if x < 18014398509481984 ∧ (x / 2) % 2 = 1 then x + 2
  else x

/-- `getPostBySlug`: `post.views++` on the published post found, then `post.save()`. -/
def getPostBySlug (store : PostStore) (slug : JSString) : Response × PostStore :=
  match findOnePublished store slug with
  | none => (⟨404, .message "Post not found"⟩, store)
  | some post =>
    let post := { post with views := incrementNumber post.views }
    (⟨200, .post post⟩, save store post)

/-- The field assignments of `updatePost` between the ownership check and `post.save()`. -/
def applyUpdate (toLowerCase : JSString → JSString) (post : Post) (body : PostBody) : Post :=
  let post :=
    if truthy body.title && !(trim (body.title.getD [])).isEmpty then
      { post with title := body.title.getD [], slug := generateSlug toLowerCase (body.title.getD []) }
    else post
  let post := { post with content := orElseStored body.content post.content }
  let post := { post with coverImage := orElseStored body.coverImage post.coverImage }
  let post := { post with tags := body.tags.getD post.tags }
  { post with isPublished := body.isPublished.getD post.isPublished }

/-- `updatePost`. -/
def updatePost (toLowerCase : JSString → JSString) (store : PostStore) (user : AuthUser)
    (id : Nat) (body : PostBody) : Response × PostStore :=
  match findById store id with
  | none => (⟨404, .message "Post not found"⟩, store)
  | some post =>
    if post.author != user._id then (⟨403, .message "Forbidden"⟩, store)
    else
      let post := applyUpdate toLowerCase post body
      (⟨200, .post post⟩, save store post)

/-- `deletePost`. -/
def deletePost (store : PostStore) (user : AuthUser) (id : Nat) : Response × PostStore :=
  match findById store id with
  | none => (⟨404, .message "Post not found"⟩, store)
  | some post =>
    if post.author != user._id then (⟨403, .message "Forbidden"⟩, store)
    else (⟨200, .message "Post deleted successfully"⟩, deleteOne store post)

/-- The reaction arrays `likePost` leaves on the document before `post.save()`. -/
def applyLike (userId : Nat) (post : Post) : Post :=
  let alreadyLiked := post.likes.contains userId
  let alreadyDisliked := post.dislikes.contains userId
  if alreadyLiked then
    { post with likes := post.likes.filter (fun like => like != userId) }
  else
    let post := { post with likes := post.likes ++ [userId] }
    if alreadyDisliked then
      { post with dislikes := post.dislikes.filter (fun dislike => dislike != userId) }
    else post

/-- `likePost`. -/
def likePost (store : PostStore) (user : AuthUser) (id : Nat) : Response × PostStore :=
  match findById store id with
  | none => (⟨404, .message "Post not found"⟩, store)
  | some post =>
    let alreadyLiked := post.likes.contains user._id
    let post := applyLike user._id post
    (⟨200, .reaction (if alreadyLiked then "Like removed" else "Post liked")
        post.likes.length post.dislikes.length (!alreadyLiked) false⟩,
      save store post)

/-- The reaction arrays `dislikePost` leaves on the document before `post.save()`. -/
def applyDislike (userId : Nat) (post : Post) : Post :=
  let alreadyDisliked := post.dislikes.contains userId
  let alreadyLiked := post.likes.contains userId
  if alreadyDisliked then
    { post with dislikes := post.dislikes.filter (fun dislike => dislike != userId) }
  else
    let post := { post with dislikes := post.dislikes ++ [userId] }
    if alreadyLiked then
      { post with likes := post.likes.filter (fun like => like != userId) }
    else post

/-- `dislikePost`. -/
def dislikePost (store : PostStore) (user : AuthUser) (id : Nat) : Response × PostStore :=
  match findById store id with
  | none => (⟨404, .message "Post not found"⟩, store)
  | some post =>
    let alreadyDisliked := post.dislikes.contains user._id
    let post := applyDislike user._id post
    (⟨200, .reaction (if alreadyDisliked then "Dislike removed" else "Post disliked")
        post.likes.length post.dislikes.length false (!alreadyDisliked)⟩,
      save store post)

/-! ## The comment controller -/

/-- `deleteComment`. -/
def deleteComment (store : CommentStore) (user : AuthUser) (id : Nat) :
    Response × CommentStore :=
  match findCommentById store id with
  | none => (⟨404, .message "Comment not found"⟩, store)
  | some comment =>
    if comment.user != user._id then (⟨403, .message "Forbidden"⟩, store)
    else (⟨200, .message "Comment deleted successfully"⟩, deleteOneComment store comment)

/-! ## The auth controller -/

/-- The User document of `models/User.js`; `password` holds the stored hash and `avatar`
has no default. -/
structure User where
  _id : Nat
  name : JSString
  email : JSString
  password : JSString
  role : Role
  avatar : Option JSString
  bio : JSString
  deriving DecidableEq, Repr

/-- The users collection. -/
abbrev UserStore := List User

/-- `User.findOne({ email }).select("+password")`. -/
def findOneByEmail (store : UserStore) (email : JSString) : Option User :=
  store.find? (fun u => u.email == email)

/-- `User.findById(id).select("+password")`. -/
def findUserById (store : UserStore) (id : Nat) : Option User :=
  store.find? (fun u => u._id == id)

/-- `user.save()`: the stored document with the id of `user` is replaced by `user`. -/
def saveUser (store : UserStore) (user : User) : UserStore :=
  store.map (fun q => if q._id == user._id then user else q)

/-- The JSON bodies the auth handlers send. -/
inductive AuthBody where
  | message (text : String)
  | session (token : JSString) (id : Nat) (name email : JSString) (role : Role)
  | profile (text : String) (id : Nat) (name email : JSString) (role : Role)
      (avatar : Option JSString) (bio : JSString)
  deriving DecidableEq, Repr

/-- A response of the auth controller. -/
structure AuthResponse where
  status : Nat
  body : AuthBody
  deriving DecidableEq, Repr

/-- The fields `login` destructures from `req.body`. -/
structure LoginBody where
  email : Option JSString
  password : Option JSString
  deriving DecidableEq, Repr

/-- `login`. `bcryptCompare password hash` stands for `bcrypt.compare` and `generateToken`
for the signed token of a user id. The handler writes nothing to the store. -/
def login (bcryptCompare : JSString → JSString → Bool) (generateToken : Nat → JSString)
    (store : UserStore) (body : LoginBody) : AuthResponse :=
  if !truthy body.email || !truthy body.password then
    ⟨400, .message "All fields are required"⟩
  else
    match findOneByEmail store (body.email.getD []) with
    | none => ⟨400, .message "Invalid credentials"⟩
    | some user =>
      let isMatch := bcryptCompare (body.password.getD []) user.password
      if !isMatch then ⟨400, .message "Invalid credentials"⟩
      else ⟨200, .session (generateToken user._id) user._id user.name user.email user.role⟩

/-- The fields `updateProfile` destructures from `req.body`. -/
structure ProfileBody where
  name : Option JSString
  avatar : Option JSString
  bio : Option JSString
  currentPassword : Option JSString
  newPassword : Option JSString
  deriving DecidableEq, Repr

/-- The assignments of `updateProfile` to the loaded document before the password block:
`if (name)`, `if (avatar !== undefined)`, `if (bio !== undefined)`. -/
def applyProfile (user : User) (body : ProfileBody) : User :=
  let user := if truthy body.name then { user with name := body.name.getD [] } else user
  let user :=
    match body.avatar with
    | some avatar => { user with avatar := some avatar }
    | none => user
  match body.bio with
  | some bio => { user with bio := bio }
  | none => user

/-- The body of the 200 response of `updateProfile`. -/
def profileBody (user : User) : AuthBody :=
  .profile "Profile updated successfully" user._id user.name user.email user.role
    user.avatar user.bio

/-- `updateProfile`. `bcryptHash password` stands for the result of `bcrypt.hash(password, 10)`
in this call. The two password failures return before `user.save()`. -/
def updateProfile (bcryptCompare : JSString → JSString → Bool)
    (bcryptHash : JSString → JSString) (store : UserStore) (reqUser : AuthUser)
    (body : ProfileBody) : AuthResponse × UserStore :=
  match findUserById store reqUser._id with
  | none => (⟨404, .message "User not found"⟩, store)
  | some user =>
    let user := applyProfile user body
    if truthy body.currentPassword && truthy body.newPassword then
      let isMatch := bcryptCompare (body.currentPassword.getD []) user.password
      if !isMatch then (⟨400, .message "Current password is incorrect"⟩, store)
      else if (body.newPassword.getD []).length < 6 then
        (⟨400, .message "New password must be at least 6 characters"⟩, store)
      else
        let user := { user with password := bcryptHash (body.newPassword.getD []) }
        (⟨200, profileBody user⟩, saveUser store user)
    else (⟨200, profileBody user⟩, saveUser store user)

/-! ## The upload controller -/

/-- The local file system as far as `uploadImage` touches it: the paths of the files that
exist. -/
abbrev FileSystem := List JSString

/-- What a call ends in: the value it returns, or an exception that `asyncHandler`
passes on. -/
inductive Outcome (α : Type) where
  | returned (value : α)
  | threw (error : String)
  deriving DecidableEq, Repr

/-- `fs.unlinkSync(path)`: the file is removed; a missing file throws. -/
def unlinkSync (files : FileSystem) (path : JSString) : Outcome FileSystem :=
  if files.contains path then .returned (files.filter (fun f => f != path))
  else .threw "ENOENT: no such file or directory"

/-- The response of `uploadImage`: `res.json({ url })`, status 200. -/
structure UploadResponse where
  status : Nat
  url : JSString
  deriving DecidableEq, Repr

/-- `uploadImage`. `cloudinaryUpload path` stands for
`cloudinary.uploader.upload(path, { folder: "Blog" })`: the `secure_url` of the stored
image, or the exception the image host's client throws. `path` is `req.file.path`. The
statements run in order, so an exception of the upload ends the handler before
`fs.unlinkSync`. -/
def uploadImage (cloudinaryUpload : JSString → Outcome JSString) (files : FileSystem)
    (path : JSString) : Outcome UploadResponse × FileSystem :=
  match cloudinaryUpload path with
  | .threw error => (.threw error, files)
  | .returned secureUrl =>
    match unlinkSync files path with
    | .threw error => (.threw error, files)
    | .returned files' => (.returned ⟨200, secureUrl⟩, files')

/-! ## Sequences of calls and store predicates -/

/-- The responses and the final store of `n` successive `getPostBySlug` calls with one slug. -/
def getPostBySlugTimes (slug : JSString) : Nat → PostStore → List Response × PostStore
  | 0, store => ([], store)
  | n + 1, store =>
    let first := getPostBySlug store slug
    let rest := getPostBySlugTimes slug n first.2
    (first.1 :: rest.1, rest.2)

/-- No two documents of the store share a slug. -/
def UniqueSlugs (store : PostStore) : Prop :=
  store.Pairwise (fun a b => a.slug ≠ b.slug)

/-- No user id is in both reaction arrays of the post. -/
def ReactionsDisjoint (p : Post) : Prop :=
  ∀ u, ¬ (u ∈ p.likes ∧ u ∈ p.dislikes)

/-- The toggle of section 4.3 on a target reaction set and the opposite one, for caller
`u`: a caller already in the target set is removed from it and the opposite set is kept;
otherwise the caller is added to the target set and removed from the opposite set; the
membership of every other user is kept in both. -/
def Toggled (u : Nat) (target opposite target' opposite' : List Nat) : Prop :=
  (u ∈ target → (∀ x, x ∈ target' ↔ x ∈ target ∧ x ≠ u) ∧ opposite' = opposite) ∧
  (u ∉ target →
    (∀ x, x ∈ target' ↔ x ∈ target ∨ x = u) ∧ (∀ x, x ∈ opposite' ↔ x ∈ opposite ∧ x ≠ u)) ∧
  (∀ x, x ≠ u → ((x ∈ target' ↔ x ∈ target) ∧ (x ∈ opposite' ↔ x ∈ opposite)))

/-! ## Sample documents -/

/-- A reader with id 7. -/
def reader7 : AuthUser := { _id := 7, role := Role.reader }

/-- A published post of author 3 that user 7 dislikes and nobody likes. -/
def dislikedPost : Post :=
  { _id := 1
    title := ofString "Hello, World!"
    slug := ofString "hello-world"
    content := ofString "text"
    coverImage := []
    author := 3
    tags := []
    isPublished := true
    views := 0
    likes := []
    dislikes := [7] }

/-- A published post of author 3 that user 7 likes and user 8 dislikes. -/
def likedPost : Post :=
  { dislikedPost with _id := 2, slug := ofString "second", likes := [7], dislikes := [8] }

/-- The request body of the example of section 8: a post titled "Hello, World!". -/
def helloBody : PostBody :=
  { title := some (ofString "Hello, World!")
    content := some (ofString "text")
    coverImage := none
    tags := none
    isPublished := some true }

/-- An author with id 3, the owner of the sample posts. -/
def author3 : AuthUser := { _id := 3, role := Role.author }

/-- A store of two posts of author 3 with the distinct slugs "hello-world" and "second". -/
def twoPosts : PostStore := [dislikedPost, likedPost]

/-- The query `?page=2&limit=1` with no search, tag or sort parameter. -/
def pageTwoQuery : ListQuery :=
  { page := some 2, limit := some 1, search := none, tag := none, sortBy := none, order := none }

/-- A request body in which `content` and `coverImage` are present and empty, and no
other field is present. -/
def emptyContentBody : PostBody :=
  { title := none, content := some [], coverImage := some [], tags := none, isPublished := none }

/-- A registered reader with id 7 whose stored hash is the code units of "hash:secret". -/
def storedUser : User :=
  { _id := 7
    name := ofString "Ann"
    email := ofString "ann@example.com"
    password := ofString "hash:secret"
    role := Role.reader
    avatar := none
    bio := [] }

/-- A stand-in for `bcrypt.hash`: the password behind the prefix "hash:". -/
def sampleHash (password : JSString) : JSString := ofString "hash:" ++ password

/-- A stand-in for `bcrypt.compare`: the hash is `sampleHash` of the password. -/
def sampleCompare (password hash : JSString) : Bool := hash == sampleHash password

/-- A stand-in for the token signer: the one code unit of the user id. -/
def sampleToken (id : Nat) : JSString := [id]

/-- A profile request that changes the name and rotates the password from "secret" to
"longer-secret". -/
def rotateBody : ProfileBody :=
  { name := some (ofString "Anna")
    avatar := none
    bio := some (ofString "hi")
    currentPassword := some (ofString "secret")
    newPassword := some (ofString "longer-secret") }

/-- The path at which the upload middleware staged the file of the sample request. -/
def stagedPath : JSString := ofString "/tmp/1730851200000-cat.png"

/-- An image host that is unreachable: every upload throws. -/
def failingUpload (_path : JSString) : Outcome JSString := .threw "upload failed"

/-- An image host that stores every file under one URL. -/
def workingUpload (_path : JSString) : Outcome JSString :=
  .returned (ofString "https://img.example/Blog/cat.png")

/-- A post of author 3 in which user 7 is in both reaction arrays, a state outside the data
model that no handler produces. -/
def overlappingPost : Post :=
  { dislikedPost with _id := 4, slug := ofString "fourth", likes := [7], dislikes := [7] }

/-- The store `updatePost` leaves when author 3 retitles post 2 of `twoPosts`
"Hello, World!": posts 1 and 2 are both published with the slug "hello-world". -/
def retitledStore : PostStore := (updatePost asciiToLowerCase twoPosts author3 2 helloBody).2

/-- A published post whose view counter has reached 2^53. -/
def saturatedPost : Post := { dislikedPost with views := 9007199254740992 }

/-- A profile request that changes the name and bio and supplies a wrong current password
together with the empty string as new password. -/
def emptyNewPasswordBody : ProfileBody :=
  { name := some (ofString "Anna")
    avatar := none
    bio := some (ofString "hi")
    currentPassword := some (ofString "guess")
    newPassword := some [] }

/-! ## Slugs -/

theorem isSlugUnit_of_isLowerAlnum {c : Nat} (h : isLowerAlnum c = true) : isSlugUnit c := by
  unfold isLowerAlnum at h
  unfold isSlugUnit
  simp only [Bool.or_eq_true, Bool.and_eq_true, decide_eq_true_eq] at h
  omega

theorem isLowerAlnum_ne_hyphen {c : Nat} (h : isLowerAlnum c = true) : c ≠ hyphen := by
  unfold isLowerAlnum at h
  unfold hyphen
  simp only [Bool.or_eq_true, Bool.and_eq_true, decide_eq_true_eq] at h
  omega

theorem replaceRuns_units (inRun : Bool) (s : JSString) :
    ∀ c ∈ replaceRuns inRun s, isSlugUnit c := by
  induction s generalizing inRun with
  | nil => intro c hc; simp [replaceRuns] at hc
  | cons a as ih =>
    intro c hc
    unfold replaceRuns at hc
    split at hc
    · rename_i ha
      rcases List.mem_cons.mp hc with rfl | hc
      · exact isSlugUnit_of_isLowerAlnum ha
      · exact ih false c hc
    · split at hc
      · exact ih true c hc
      · rcases List.mem_cons.mp hc with rfl | hc
        · exact Or.inr (Or.inr rfl)
        · exact ih true c hc

theorem replaceRuns_head (s : JSString) : (replaceRuns true s).head? ≠ some hyphen := by
  induction s with
  | nil => simp [replaceRuns]
  | cons a as ih =>
    unfold replaceRuns
    split
    · rename_i ha
      simpa using isLowerAlnum_ne_hyphen ha
    · simpa using ih

theorem replaceRuns_noDoubleHyphen (inRun : Bool) (s : JSString) :
    NoDoubleHyphen (replaceRuns inRun s) := by
  unfold NoDoubleHyphen
  induction s generalizing inRun with
  | nil => simp [replaceRuns]
  | cons a as ih =>
    unfold replaceRuns
    split
    · rename_i ha
      refine List.Chain'.cons' (ih false) ?_
      intro b _ hab
      exact isLowerAlnum_ne_hyphen ha hab.1
    · split
      · exact ih true
      · refine List.Chain'.cons' (ih true) ?_
        intro b hb hab
        exact replaceRuns_head as (by rw [hb, hab.2])

theorem stripHyphens_prefix_suffix (s : JSString) :
    stripHyphens s <:+: s :=
  (List.rdropWhile_prefix _ _).isInfix.trans (List.dropWhile_suffix _).isInfix

theorem stripHyphens_head (s : JSString) : (stripHyphens s).head? ≠ some hyphen := by
  unfold stripHyphens
  intro h
  have hne : List.rdropWhile (· == hyphen) (s.dropWhile (· == hyphen)) ≠ [] := by
    intro h0; rw [h0] at h; simp at h
  have hpre := List.rdropWhile_prefix (fun x => x == hyphen) (s.dropWhile (· == hyphen))
  have hhead := hpre.head hne
  have h1 : (s.dropWhile (· == hyphen)).head? = some hyphen := by
    rw [← h, List.head?_eq_head hne, hhead, ← List.head?_eq_head]
  have h2 := List.head?_dropWhile_not (fun x => x == hyphen) s
  rw [h1] at h2
  simp at h2

theorem stripHyphens_getLast (s : JSString) : (stripHyphens s).getLast? ≠ some hyphen := by
  unfold stripHyphens
  intro h
  have hne : List.rdropWhile (· == hyphen) (s.dropWhile (· == hyphen)) ≠ [] := by
    intro h0; rw [h0] at h; simp at h
  have h1 := List.rdropWhile_last_not (fun x => x == hyphen) (s.dropWhile (· == hyphen)) hne
  rw [List.getLast?_eq_getLast _ hne] at h
  simp only [Option.some.injEq] at h
  rw [h] at h1
  simp at h1

/-- C1: for every title and every lower-casing function, `generateSlug` returns a string
made only of `a`-`z`, `0`-`9` and `-`, with no two consecutive `-`, that neither starts
nor ends with `-`. -/
theorem generateSlug_wellFormed (toLowerCase : JSString → JSString) (title : JSString) :
    (∀ c ∈ generateSlug toLowerCase title, isSlugUnit c) ∧
    NoDoubleHyphen (generateSlug toLowerCase title) ∧
    (∀ i, (generateSlug toLowerCase title)[i]? = some hyphen →
      (generateSlug toLowerCase title)[i + 1]? ≠ some hyphen) ∧
    (generateSlug toLowerCase title).head? ≠ some hyphen ∧
    (generateSlug toLowerCase title).getLast? ≠ some hyphen := by
  have hchain : NoDoubleHyphen (generateSlug toLowerCase title) :=
    List.Chain'.infix (replaceRuns_noDoubleHyphen false _) (stripHyphens_prefix_suffix _)
  refine ⟨?_, hchain, ?_, stripHyphens_head _, stripHyphens_getLast _⟩
  · intro c hc
    exact replaceRuns_units false _ c ((stripHyphens_prefix_suffix _).subset hc)
  · intro i hi hi1
    have hlt : i + 1 < (generateSlug toLowerCase title).length := by
      by_contra hge
      rw [List.getElem?_eq_none (by omega)] at hi1
      exact Option.noConfusion hi1
    have h := (List.chain'_iff_get.mp hchain) i (by omega)
    simp only [List.get_eq_getElem] at h
    rw [List.getElem?_eq_getElem (by omega)] at hi
    rw [List.getElem?_eq_getElem hlt] at hi1
    exact h ⟨Option.some.inj hi, Option.some.inj hi1⟩

/-! ## Store lemmas -/

theorem findById_id {store : PostStore} {id : Nat} {post : Post}
    (h : findById store id = some post) : post._id = id := by
  have := List.find?_some h
  simpa using this

theorem findById_save {store : PostStore} {id : Nat} {post saved : Post}
    (h : findById store id = some post) (hid : saved._id = id) :
    findById (save store saved) id = some saved := by
  unfold findById save at *
  induction store with
  | nil => simp at h
  | cons q qs ih =>
    by_cases hq : q._id = id
    · simp [List.find?, hq, hid]
    · have hq1 : (q._id == id) = false := by simpa using hq
      have hq2 : (q._id == saved._id) = false := by simpa [hid] using hq
      rw [List.find?_cons, hq1] at h
      simp only [List.map_cons, hq2, List.find?_cons, Bool.false_eq_true, if_false, hq1]
      exact ih h

theorem applyLike_id (u : Nat) (post : Post) : (applyLike u post)._id = post._id := by
  unfold applyLike
  simp only
  split
  · rfl
  · split <;> rfl

theorem applyDislike_id (u : Nat) (post : Post) : (applyDislike u post)._id = post._id := by
  unfold applyDislike
  simp only
  split
  · rfl
  · split <;> rfl

theorem likePost_saved {store : PostStore} {id : Nat} {post : Post} (user : AuthUser)
    (h : findById store id = some post) :
    findById (likePost store user id).2 id = some (applyLike user._id post) := by
  have hid := findById_id h
  unfold likePost
  simp only [h]
  exact findById_save h (by rw [applyLike_id, hid])

theorem dislikePost_saved {store : PostStore} {id : Nat} {post : Post} (user : AuthUser)
    (h : findById store id = some post) :
    findById (dislikePost store user id).2 id = some (applyDislike user._id post) := by
  have hid := findById_id h
  unfold dislikePost
  simp only [h]
  exact findById_save h (by rw [applyDislike_id, hid])

theorem applyLike_likes_of_mem {u : Nat} {post : Post} (h : u ∈ post.likes) :
    (applyLike u post).likes = post.likes.filter (fun x => x != u) ∧
    (applyLike u post).dislikes = post.dislikes := by
  unfold applyLike
  simp [h]

theorem applyLike_likes_of_not_mem {u : Nat} {post : Post} (h : u ∉ post.likes) :
    (applyLike u post).likes = post.likes ++ [u] ∧
    (applyLike u post).dislikes = post.dislikes.filter (fun x => x != u) := by
  unfold applyLike
  by_cases hd : u ∈ post.dislikes
  · simp [h, hd]
  · have : post.dislikes.filter (fun x => x != u) = post.dislikes := by
      rw [List.filter_eq_self]
      intro a ha
      have : a ≠ u := fun e => hd (e ▸ ha)
      simpa using this
    simp [h, hd, this]

theorem applyDislike_of_mem {u : Nat} {post : Post} (h : u ∈ post.dislikes) :
    (applyDislike u post).dislikes = post.dislikes.filter (fun x => x != u) ∧
    (applyDislike u post).likes = post.likes := by
  unfold applyDislike
  simp [h]

theorem applyDislike_of_not_mem {u : Nat} {post : Post} (h : u ∉ post.dislikes) :
    (applyDislike u post).dislikes = post.dislikes ++ [u] ∧
    (applyDislike u post).likes = post.likes.filter (fun x => x != u) := by
  unfold applyDislike
  by_cases hd : u ∈ post.likes
  · simp [h, hd]
  · have : post.likes.filter (fun x => x != u) = post.likes := by
      rw [List.filter_eq_self]
      intro a ha
      have : a ≠ u := fun e => hd (e ▸ ha)
      simpa using this
    simp [h, hd, this]

theorem applyLike_disjoint {u : Nat} {post : Post} (h : ReactionsDisjoint post) :
    ReactionsDisjoint (applyLike u post) := by
  intro x hx
  by_cases hu : u ∈ post.likes
  · obtain ⟨hl, hd⟩ := applyLike_likes_of_mem hu
    rw [hl, hd] at hx
    exact h x ⟨(List.mem_filter.mp hx.1).1, hx.2⟩
  · obtain ⟨hl, hd⟩ := applyLike_likes_of_not_mem hu
    rw [hl, hd] at hx
    obtain ⟨h1, h2⟩ := hx
    rw [List.mem_filter] at h2
    rcases List.mem_append.mp h1 with h1 | h1
    · exact h x ⟨h1, h2.1⟩
    · have hxu : x = u := by simpa using h1
      simp [hxu] at h2

theorem applyDislike_disjoint {u : Nat} {post : Post} (h : ReactionsDisjoint post) :
    ReactionsDisjoint (applyDislike u post) := by
  intro x hx
  by_cases hu : u ∈ post.dislikes
  · obtain ⟨hd, hl⟩ := applyDislike_of_mem hu
    rw [hl, hd] at hx
    exact h x ⟨hx.1, (List.mem_filter.mp hx.2).1⟩
  · obtain ⟨hd, hl⟩ := applyDislike_of_not_mem hu
    rw [hl, hd] at hx
    obtain ⟨h1, h2⟩ := hx
    rw [List.mem_filter] at h1
    rcases List.mem_append.mp h2 with h2 | h2
    · exact h x ⟨h1.1, h2⟩
    · have hxu : x = u := by simpa using h2
      simp [hxu] at h1

/-! ## Reactions -/

/-- C2: when the likes and dislikes of a stored post are disjoint, the document saved by
`likePost` and the document saved by `dislikePost` for that post again have disjoint
likes and dislikes, for every caller. -/
theorem reactions_stay_disjoint (store : PostStore) (user : AuthUser) (id : Nat) (post : Post)
    (hfound : findById store id = some post) (hdisj : ReactionsDisjoint post) :
    (∃ saved, findById (likePost store user id).2 id = some saved ∧ ReactionsDisjoint saved) ∧
    (∃ saved, findById (dislikePost store user id).2 id = some saved ∧
      ReactionsDisjoint saved) :=
  ⟨⟨_, likePost_saved user hfound, applyLike_disjoint hdisj⟩,
   ⟨_, dislikePost_saved user hfound, applyDislike_disjoint hdisj⟩⟩

theorem reactions_stay_disjoint_witness :
    (findById [dislikedPost] 1 = some dislikedPost ∧ ReactionsDisjoint dislikedPost) ∧
    (∃ saved, findById (likePost [dislikedPost] reader7 1).2 1 = some saved ∧
      ReactionsDisjoint saved) ∧
    (∃ saved, findById (dislikePost [dislikedPost] reader7 1).2 1 = some saved ∧
      ReactionsDisjoint saved) :=
  ⟨⟨by decide, fun u h => by simp [dislikedPost] at h⟩,
   reactions_stay_disjoint [dislikedPost] reader7 1 dislikedPost (by decide)
     (fun u h => by simp [dislikedPost] at h)⟩

/-- C3, as stated, fails: user 7 dislikes the post, likes it twice, and the dislike is
gone, so the dislikes set and its count differ from the original ones. -/
theorem likePost_twice_loses_dislike :
    findById [dislikedPost] 1 = some dislikedPost ∧
    dislikedPost.likes = [] ∧ dislikedPost.dislikes = [7] ∧
    (findById (likePost (likePost [dislikedPost] reader7 1).2 reader7 1).2 1).map
      (fun p => (p.likes, p.dislikes)) = some ([], []) := by
  decide

/-- C3, amended: when the caller is not in the dislikes of the post, two `likePost` calls
in a row leave the dislikes array as it was and the likes set with the same members; the
likes count is the original one when the likes array holds no user twice. -/
theorem likePost_twice_restores (store : PostStore) (user : AuthUser) (id : Nat) (post : Post)
    (hfound : findById store id = some post) (hnot : user._id ∉ post.dislikes) :
    ∃ saved, findById (likePost (likePost store user id).2 user id).2 id = some saved ∧
      (∀ x, x ∈ saved.likes ↔ x ∈ post.likes) ∧
      saved.dislikes = post.dislikes ∧
      (post.likes.Nodup → saved.likes.length = post.likes.length ∧
        saved.dislikes.length = post.dislikes.length) := by
  refine ⟨_, likePost_saved user (likePost_saved user hfound), ?_⟩
  have hfilter : post.dislikes.filter (fun x => x != user._id) = post.dislikes := by
    rw [List.filter_eq_self]
    intro a ha
    have : a ≠ user._id := fun e => hnot (e ▸ ha)
    simpa using this
  by_cases hu : user._id ∈ post.likes
  · obtain ⟨hl1, hd1⟩ := applyLike_likes_of_mem hu
    have hu1 : user._id ∉ (applyLike user._id post).likes := by
      rw [hl1]; simp
    obtain ⟨hl2, hd2⟩ := applyLike_likes_of_not_mem hu1
    rw [hl2, hd2, hl1, hd1, hfilter]
    refine ⟨?_, rfl, ?_⟩
    · intro x
      by_cases hx : x = user._id
      · simp [hx, hu]
      · simp [hx]
    · intro hnd
      refine ⟨?_, rfl⟩
      rw [List.length_append, ← hnd.erase_eq_filter, List.length_erase_of_mem hu]
      have : 0 < post.likes.length := List.length_pos_of_mem hu
      simp only [List.length_singleton]
      omega
  · obtain ⟨hl1, hd1⟩ := applyLike_likes_of_not_mem hu
    have hu1 : user._id ∈ (applyLike user._id post).likes := by
      rw [hl1]; simp
    obtain ⟨hl2, hd2⟩ := applyLike_likes_of_mem hu1
    have hkeep : (post.likes ++ [user._id]).filter (fun x => x != user._id) = post.likes := by
      rw [List.filter_append]
      have : post.likes.filter (fun x => x != user._id) = post.likes := by
        rw [List.filter_eq_self]
        intro a ha
        have : a ≠ user._id := fun e => hu (e ▸ ha)
        simpa using this
      simp [this]
    rw [hl2, hd2, hl1, hd1, hfilter, hkeep]
    exact ⟨fun _ => Iff.rfl, rfl, fun _ => ⟨rfl, rfl⟩⟩

theorem likePost_twice_restores_witness :
    (findById [likedPost] 2 = some likedPost ∧ reader7._id ∉ likedPost.dislikes) ∧
    ∃ saved, findById (likePost (likePost [likedPost] reader7 2).2 reader7 2).2 2 = some saved ∧
      (∀ x, x ∈ saved.likes ↔ x ∈ likedPost.likes) ∧
      saved.dislikes = likedPost.dislikes ∧
      (likedPost.likes.Nodup → saved.likes.length = likedPost.likes.length ∧
        saved.dislikes.length = likedPost.dislikes.length) :=
  ⟨⟨by decide, by decide⟩,
   likePost_twice_restores [likedPost] reader7 2 likedPost (by decide) (by decide)⟩

theorem applyLike_toggled (u : Nat) (post : Post) :
    Toggled u post.likes post.dislikes (applyLike u post).likes (applyLike u post).dislikes := by
  unfold Toggled
  by_cases hu : u ∈ post.likes
  · obtain ⟨hl, hd⟩ := applyLike_likes_of_mem hu
    rw [hl, hd]
    refine ⟨fun _ => ⟨fun x => by simp, rfl⟩, fun h => absurd hu h, fun x hx => ?_⟩
    simp [hx]
  · obtain ⟨hl, hd⟩ := applyLike_likes_of_not_mem hu
    rw [hl, hd]
    refine ⟨fun h => absurd h hu, fun _ => ⟨fun x => by simp, fun x => by simp⟩, fun x hx => ?_⟩
    simp [hx]

theorem applyDislike_toggled (u : Nat) (post : Post) :
    Toggled u post.dislikes post.likes (applyDislike u post).dislikes
      (applyDislike u post).likes := by
  unfold Toggled
  by_cases hu : u ∈ post.dislikes
  · obtain ⟨hd, hl⟩ := applyDislike_of_mem hu
    rw [hl, hd]
    refine ⟨fun _ => ⟨fun x => by simp, rfl⟩, fun h => absurd hu h, fun x hx => ?_⟩
    simp [hx]
  · obtain ⟨hd, hl⟩ := applyDislike_of_not_mem hu
    rw [hl, hd]
    refine ⟨fun h => absurd h hu, fun _ => ⟨fun x => by simp, fun x => by simp⟩, fun x hx => ?_⟩
    simp [hx]

/-- C4: for an existing post and caller `u`, the document `likePost` saves is the toggle of
`u` on likes against dislikes (removed from likes when already there, dislikes kept;
otherwise added to likes and removed from dislikes; every other user kept in both), the
document `dislikePost` saves is the same toggle with the two sets exchanged, and liking a
post that `u` dislikes (and does not like) ends with `u` in likes and not in dislikes. -/
theorem toggle_semantics (store : PostStore) (user : AuthUser) (id : Nat) (post : Post)
    (hfound : findById store id = some post) :
    (∃ saved, findById (likePost store user id).2 id = some saved ∧
      Toggled user._id post.likes post.dislikes saved.likes saved.dislikes ∧
      (user._id ∈ post.dislikes → user._id ∉ post.likes →
        user._id ∈ saved.likes ∧ user._id ∉ saved.dislikes)) ∧
    (∃ saved, findById (dislikePost store user id).2 id = some saved ∧
      Toggled user._id post.dislikes post.likes saved.dislikes saved.likes ∧
      (user._id ∈ post.likes → user._id ∉ post.dislikes →
        user._id ∈ saved.dislikes ∧ user._id ∉ saved.likes)) := by
  refine ⟨⟨_, likePost_saved user hfound, applyLike_toggled _ _, ?_⟩,
    ⟨_, dislikePost_saved user hfound, applyDislike_toggled _ _, ?_⟩⟩
  · intro _ hl
    obtain ⟨h1, h2⟩ := applyLike_likes_of_not_mem hl
    rw [h1, h2]
    simp
  · intro _ hd
    obtain ⟨h1, h2⟩ := applyDislike_of_not_mem hd
    rw [h1, h2]
    simp

theorem toggle_semantics_witness :
    findById [dislikedPost] 1 = some dislikedPost ∧
    (∃ saved, findById (likePost [dislikedPost] reader7 1).2 1 = some saved ∧
      Toggled reader7._id dislikedPost.likes dislikedPost.dislikes saved.likes saved.dislikes ∧
      (reader7._id ∈ dislikedPost.dislikes → reader7._id ∉ dislikedPost.likes →
        reader7._id ∈ saved.likes ∧ reader7._id ∉ saved.dislikes)) ∧
    (∃ saved, findById (dislikePost [dislikedPost] reader7 1).2 1 = some saved ∧
      Toggled reader7._id dislikedPost.dislikes dislikedPost.likes saved.dislikes saved.likes ∧
      (reader7._id ∈ dislikedPost.likes → reader7._id ∉ dislikedPost.dislikes →
        reader7._id ∈ saved.dislikes ∧ reader7._id ∉ saved.likes)) :=
  ⟨by decide, toggle_semantics [dislikedPost] reader7 1 dislikedPost (by decide)⟩

/-! ## Creating posts -/

theorem trim_nil : trim [] = [] := by decide

theorem ne_nil_of_trim_ne_nil {s : JSString} (h : trim s ≠ []) : s ≠ [] := by
  intro hs
  exact h (hs ▸ trim_nil)

theorem isBlank_some_eq_false {s : JSString} (h : trim s ≠ []) : isBlank (some s) = false := by
  have hs := ne_nil_of_trim_ne_nil h
  simp [isBlank, List.isEmpty_iff, hs, h]

theorem findOneBySlug_eq_none {store : PostStore} {slug : JSString} :
    findOneBySlug store slug = none ↔ ∀ p ∈ store, p.slug ≠ slug := by
  unfold findOneBySlug
  simp

theorem createPost_conflict (toLowerCase : JSString → JSString) (newId : Nat)
    (defaultPublished : Bool) (store : PostStore) (user : AuthUser) (body : PostBody)
    (title content : JSString)
    (htitle : body.title = some title) (hcontent : body.content = some content)
    (ht : trim title ≠ []) (hc : trim content ≠ [])
    (hex : ∃ p ∈ store, p.slug = generateSlug toLowerCase title) :
    createPost toLowerCase newId defaultPublished store user body =
      (⟨400, .message "Post with this title already exists"⟩, store) := by
  unfold createPost
  rw [htitle, hcontent, isBlank_some_eq_false ht, isBlank_some_eq_false hc]
  simp only [Bool.or_self, Bool.false_eq_true, if_false, Option.getD_some]
  cases hfind : findOneBySlug store (generateSlug toLowerCase title) with
  | some q => rfl
  | none =>
    obtain ⟨p, hp, hslug⟩ := hex
    exact absurd hslug (findOneBySlug_eq_none.mp hfind p hp)

/-- C5: for a request whose title and content are not blank, `createPost` answers 400
"Post with this title already exists" and leaves the store as it was when some stored post
has the slug `generateSlug title`; otherwise it appends exactly one post, with that slug, the
supplied title and content and the caller as author, and answers 201, after which a second
`createPost` with the same body is the conflict. When "Hello, World!" lower-cases to
"hello, world!", its slug is "hello-world". -/
theorem createPost_spec (toLowerCase : JSString → JSString) (newId : Nat)
    (defaultPublished : Bool) (store : PostStore) (user : AuthUser) (body : PostBody)
    (title content : JSString)
    (htitle : body.title = some title) (hcontent : body.content = some content)
    (ht : trim title ≠ []) (hc : trim content ≠ []) :
    ((∃ p ∈ store, p.slug = generateSlug toLowerCase title) →
      createPost toLowerCase newId defaultPublished store user body =
        (⟨400, .message "Post with this title already exists"⟩, store)) ∧
    ((∀ p ∈ store, p.slug ≠ generateSlug toLowerCase title) →
      ∃ newPost,
        createPost toLowerCase newId defaultPublished store user body =
          (⟨201, .post newPost⟩, store ++ [newPost]) ∧
        newPost.slug = generateSlug toLowerCase title ∧
        newPost.author = user._id ∧
        newPost.title = title ∧
        newPost.content = content ∧
        ∀ (newId' : Nat) (user' : AuthUser),
          createPost toLowerCase newId' defaultPublished (store ++ [newPost]) user' body =
            (⟨400, .message "Post with this title already exists"⟩, store ++ [newPost])) ∧
    (toLowerCase (ofString "Hello, World!") = ofString "hello, world!" →
      generateSlug toLowerCase (ofString "Hello, World!") = ofString "hello-world") := by
  refine ⟨createPost_conflict toLowerCase newId defaultPublished store user body title content
    htitle hcontent ht hc, ?_, ?_⟩
  · intro hfree
    have hnone := findOneBySlug_eq_none.mpr hfree
    refine ⟨{ _id := newId, title := title, slug := generateSlug toLowerCase title,
              content := content, coverImage := orElseStored body.coverImage [],
              author := user._id, tags := body.tags.getD [],
              isPublished := body.isPublished.getD defaultPublished,
              views := 0, likes := [], dislikes := [] }, ?_, rfl, rfl, rfl, rfl, ?_⟩
    · unfold createPost
      rw [htitle, hcontent, isBlank_some_eq_false ht, isBlank_some_eq_false hc]
      simp only [Bool.or_self, Bool.false_eq_true, if_false, Option.getD_some, hnone]
    · intro newId' user'
      refine createPost_conflict toLowerCase newId' defaultPublished _ user' body title content
        htitle hcontent ht hc ⟨_, List.mem_append_right _ (List.mem_singleton.mpr rfl), rfl⟩
  · intro hlow
    unfold generateSlug
    rw [hlow]
    decide

theorem createPost_spec_witness :
    (helloBody.title = some (ofString "Hello, World!") ∧
      helloBody.content = some (ofString "text") ∧
      trim (ofString "Hello, World!") ≠ [] ∧ trim (ofString "text") ≠ []) ∧
    (((∃ p ∈ [likedPost], p.slug = generateSlug asciiToLowerCase (ofString "Hello, World!")) →
      createPost asciiToLowerCase 9 false [likedPost] author3 helloBody =
        (⟨400, .message "Post with this title already exists"⟩, [likedPost])) ∧
    ((∀ p ∈ [likedPost], p.slug ≠ generateSlug asciiToLowerCase (ofString "Hello, World!")) →
      ∃ newPost,
        createPost asciiToLowerCase 9 false [likedPost] author3 helloBody =
          (⟨201, .post newPost⟩, [likedPost] ++ [newPost]) ∧
        newPost.slug = generateSlug asciiToLowerCase (ofString "Hello, World!") ∧
        newPost.author = author3._id ∧
        newPost.title = ofString "Hello, World!" ∧
        newPost.content = ofString "text" ∧
        ∀ (newId' : Nat) (user' : AuthUser),
          createPost asciiToLowerCase newId' false ([likedPost] ++ [newPost]) user' helloBody =
            (⟨400, .message "Post with this title already exists"⟩,
              [likedPost] ++ [newPost])) ∧
    (asciiToLowerCase (ofString "Hello, World!") = ofString "hello, world!" →
      generateSlug asciiToLowerCase (ofString "Hello, World!") = ofString "hello-world")) :=
  ⟨⟨by decide, by decide, by decide, by decide⟩,
   createPost_spec asciiToLowerCase 9 false [likedPost] author3 helloBody
     (ofString "Hello, World!") (ofString "text") (by decide) (by decide) (by decide)
     (by decide)⟩

/-! ## Slug uniqueness -/

theorem createPost_keeps_unique_slugs (toLowerCase : JSString → JSString) (newId : Nat)
    (defaultPublished : Bool) (store : PostStore) (user : AuthUser) (body : PostBody)
    (h : UniqueSlugs store) :
    UniqueSlugs (createPost toLowerCase newId defaultPublished store user body).2 := by
  unfold createPost
  split
  · exact h
  · simp only
    split
    · exact h
    · rename_i hnone
      unfold UniqueSlugs
      rw [List.pairwise_append]
      refine ⟨h, List.pairwise_singleton _ _, ?_⟩
      intro a ha b hb
      rw [List.mem_singleton] at hb
      subst hb
      exact findOneBySlug_eq_none.mp hnone a ha

theorem deletePost_keeps_unique_slugs (store : PostStore) (user : AuthUser) (id : Nat)
    (h : UniqueSlugs store) : UniqueSlugs (deletePost store user id).2 := by
  unfold deletePost
  split
  · exact h
  · split
    · exact h
    · exact List.Pairwise.sublist (List.filter_sublist _) h

/-- C6 fails on `updatePost`: in a store whose two posts have distinct slugs, the owner
retitles the second post "Hello, World!"; the update succeeds with status 200 and both
stored posts then have the slug "hello-world". `createPost` looks the slug up before it
writes; `updatePost` does not. -/
theorem updatePost_duplicates_slug :
    UniqueSlugs twoPosts ∧
    (updatePost asciiToLowerCase twoPosts author3 2 helloBody).1.status = 200 ∧
    (updatePost asciiToLowerCase twoPosts author3 2 helloBody).2.map (fun p => p.slug) =
      [ofString "hello-world", ofString "hello-world"] ∧
    ¬ UniqueSlugs (updatePost asciiToLowerCase twoPosts author3 2 helloBody).2 := by
  refine ⟨by unfold UniqueSlugs; decide, by decide, by decide, ?_⟩
  unfold UniqueSlugs
  decide

/-! ## View counting -/

theorem findOnePublished_spec {store : PostStore} {slug : JSString} {post : Post}
    (h : findOnePublished store slug = some post) :
    post.slug = slug ∧ post.isPublished = true ∧ post ∈ store := by
  have h1 := List.find?_some h
  have h2 := List.mem_of_find?_eq_some h
  simp only [Bool.and_eq_true, beq_iff_eq] at h1
  exact ⟨h1.1, h1.2, h2⟩

theorem findOnePublished_of_unique {store : PostStore} {post : Post}
    (hu : UniqueSlugs store) (hmem : post ∈ store) (hpub : post.isPublished = true) :
    findOnePublished store post.slug = some post := by
  unfold findOnePublished
  unfold UniqueSlugs at hu
  induction store with
  | nil => simp at hmem
  | cons q qs ih =>
    rw [List.pairwise_cons] at hu
    rcases List.mem_cons.mp hmem with rfl | hq
    · simp [List.find?, hpub]
    · have hne : q.slug ≠ post.slug := hu.1 post hq
      have : (q.slug == post.slug && q.isPublished) = false := by simp [hne]
      rw [List.find?_cons, this]
      exact ih hu.2 hq

theorem findOnePublished_save {store : PostStore} {slug : JSString} {post saved : Post}
    (h : findOnePublished store slug = some post) (hid : saved._id = post._id)
    (hslug : saved.slug = slug) (hpub : saved.isPublished = true) :
    findOnePublished (save store saved) slug = some saved := by
  unfold findOnePublished save at *
  have hsaved : (saved.slug == slug && saved.isPublished) = true := by simp [hslug, hpub]
  induction store with
  | nil => simp at h
  | cons q qs ih =>
    rw [List.find?_cons] at h
    rw [List.map_cons, List.find?_cons]
    cases hq : (q.slug == slug && q.isPublished) with
    | true =>
      rw [hq] at h
      have hqp : q = post := Option.some.inj h
      subst hqp
      simp [hid, hsaved]
    | false =>
      rw [hq] at h
      by_cases hqid : q._id = saved._id
      · simp [hqid, hsaved]
      · have : (q._id == saved._id) = false := by simpa using hqid
        simp only [this, Bool.false_eq_true, if_false, hq]
        exact ih h

theorem incrementNumber_of_lt {x : Nat} (h : x < 9007199254740992) :
    incrementNumber x = x + 1 := by
  unfold incrementNumber
  rw [if_pos h]

theorem getPostBySlug_found {store : PostStore} {slug : JSString} {post : Post}
    (h : findOnePublished store slug = some post) :
    getPostBySlug store slug =
      (⟨200, .post { post with views := incrementNumber post.views }⟩,
        save store { post with views := incrementNumber post.views }) := by
  unfold getPostBySlug
  rw [h]

theorem getPostBySlugTimes_found (slug : JSString) (n : Nat) :
    ∀ (store : PostStore) (post : Post), findOnePublished store slug = some post →
      post.views + n ≤ 9007199254740992 →
      (getPostBySlugTimes slug n store).1.map (fun r => r.status) = List.replicate n 200 ∧
      findOnePublished (getPostBySlugTimes slug n store).2 slug =
        some { post with views := post.views + n } := by
  induction n with
  | zero =>
    intro store post h _
    exact ⟨rfl, h⟩
  | succ n ih =>
    intro store post h hbound
    obtain ⟨hslug, hpub, _⟩ := findOnePublished_spec h
    have hstep := getPostBySlug_found h
    rw [incrementNumber_of_lt (by omega)] at hstep
    have hnext : findOnePublished (save store { post with views := post.views + 1 }) slug =
        some { post with views := post.views + 1 } :=
      findOnePublished_save h rfl hslug hpub
    obtain ⟨ih1, ih2⟩ := ih _ _ hnext (by show post.views + 1 + n ≤ 9007199254740992; omega)
    unfold getPostBySlugTimes
    simp only [hstep, List.map_cons, List.replicate_succ]
    refine ⟨by rw [ih1], ?_⟩
    rw [ih2]
    have : post.views + 1 + n = post.views + (n + 1) := by omega
    simp only [this]

/-- C7, as stated, fails in two ways. In the store that `updatePost` leaves with two
published posts under the slug "hello-world", three `getPostBySlug` calls with that slug
answer 200 each and the view count of post 2 is still 0, not 3: the lookup returns post 1.
And a published post whose view count is 2^53 is answered 200 with the view count still
2^53, not 2^53 + 1. -/
theorem getPostBySlug_misses_views :
    ((findById retitledStore 2).map (fun p => (p.slug, p.isPublished, p.views)) =
        some (ofString "hello-world", true, 0) ∧
      (getPostBySlugTimes (ofString "hello-world") 3 retitledStore).1.map (fun r => r.status) =
        [200, 200, 200] ∧
      (findById (getPostBySlugTimes (ofString "hello-world") 3 retitledStore).2 2).map
        (fun p => p.views) = some 0) ∧
    (findOnePublished [saturatedPost] (ofString "hello-world") = some saturatedPost ∧
      saturatedPost.views = 9007199254740992 ∧
      getPostBySlug [saturatedPost] (ofString "hello-world") =
        (⟨200, .post saturatedPost⟩, [saturatedPost])) := by
  decide

/-- C7, amended: when the lookup of the slug among published posts returns the post (in a
store with unique slugs it returns every published post for its slug), the view count of
the post is `v` and `v + n ≤ 2^53`, each of `n` successive `getPostBySlug` calls with the
slug answers 200 and the stored post is afterwards the same post with view count `v + n`;
a call whose slug matches no published post answers 404 and leaves the whole store, so
every view count, unchanged. -/
theorem getPostBySlug_counts_views (store : PostStore) (slug : JSString) (post : Post)
    (n : Nat) (hfound : findOnePublished store slug = some post)
    (hbound : post.views + n ≤ 9007199254740992) :
    (getPostBySlugTimes slug n store).1.map (fun r => r.status) = List.replicate n 200 ∧
    (getPostBySlugTimes slug n store).1.length = n ∧
    findOnePublished (getPostBySlugTimes slug n store).2 slug =
      some { post with views := post.views + n } ∧
    (∀ (store' : PostStore) (slug' : JSString), findOnePublished store' slug' = none →
      getPostBySlug store' slug' = (⟨404, .message "Post not found"⟩, store')) ∧
    (UniqueSlugs store → ∀ q ∈ store, q.isPublished = true →
      findOnePublished store q.slug = some q) := by
  obtain ⟨h1, h2⟩ := getPostBySlugTimes_found slug n store post hfound hbound
  refine ⟨h1, ?_, h2, ?_, ?_⟩
  · have := congrArg List.length h1
    simpa using this
  · intro store' slug' h
    unfold getPostBySlug
    rw [h]
  · intro hu q hmem hpub
    exact findOnePublished_of_unique hu hmem hpub

theorem getPostBySlug_counts_views_witness :
    (findOnePublished twoPosts (ofString "hello-world") = some dislikedPost ∧
      dislikedPost.views + 3 ≤ 9007199254740992) ∧
    ((getPostBySlugTimes (ofString "hello-world") 3 twoPosts).1.map (fun r => r.status) =
      List.replicate 3 200 ∧
    (getPostBySlugTimes (ofString "hello-world") 3 twoPosts).1.length = 3 ∧
    findOnePublished (getPostBySlugTimes (ofString "hello-world") 3 twoPosts).2
        (ofString "hello-world") =
      some { dislikedPost with views := dislikedPost.views + 3 } ∧
    (∀ (store' : PostStore) (slug' : JSString), findOnePublished store' slug' = none →
      getPostBySlug store' slug' = (⟨404, .message "Post not found"⟩, store')) ∧
    (UniqueSlugs twoPosts → ∀ q ∈ twoPosts, q.isPublished = true →
      findOnePublished twoPosts q.slug = some q)) :=
  ⟨⟨by decide, by decide⟩,
   getPostBySlug_counts_views twoPosts (ofString "hello-world") dislikedPost 3 (by decide)
     (by decide)⟩

/-! ## Pagination -/

theorem parsedOr_of_pos {n fallback : Int} (h : 1 ≤ n) : parsedOr (some n) fallback = n := by
  unfold parsedOr
  have : n ≠ 0 := by omega
  simp [this]

theorem ceil_div_le_iff (total : Nat) {limit : Int} (hl : 1 ≤ limit) (k : Int) :
    Int.ceil ((total : ℚ) / (limit : ℚ)) ≤ k ↔ (total : Int) ≤ k * limit := by
  have hpos : (0 : ℚ) < (limit : ℚ) := by exact_mod_cast (by omega : (0 : Int) < limit)
  rw [Int.ceil_le, div_le_iff₀ hpos]
  constructor
  · intro h
    exact_mod_cast h
  · intro h
    exact_mod_cast h

theorem ceil_div_eq (total : Nat) {limit : Int} (hl : 1 ≤ limit) :
    Int.ceil ((total : ℚ) / (limit : ℚ)) = ((total : Int) + limit - 1) / limit := by
  have hpos : (0 : Int) < limit := by omega
  have hdiv := Int.ediv_add_emod ((total : Int) + limit - 1) limit
  have hr0 := Int.emod_nonneg ((total : Int) + limit - 1) (by omega : limit ≠ 0)
  have hr1 := Int.emod_lt_of_pos ((total : Int) + limit - 1) hpos
  apply le_antisymm
  · rw [ceil_div_le_iff total hl]
    rw [mul_comm]
    omega
  · by_contra hlt
    have hle : Int.ceil ((total : ℚ) / (limit : ℚ)) ≤ ((total : Int) + limit - 1) / limit - 1 := by
      omega
    rw [ceil_div_le_iff total hl, sub_mul, one_mul, mul_comm] at hle
    omega

/-- C8: for parsed query values `page ≥ 1` and `limit ≥ 1`, `getAllPosts` answers 200 with
`currentPage = page`, `totalPosts` the number of stored posts that match the filter (all of
them published), `totalPages = ⌈totalPosts / limit⌉` (the least `k` with
`totalPosts ≤ k * limit`, that is `(totalPosts + limit - 1) / limit`), `hasNextPage` true
exactly when `page < totalPages`, and `hasPrevPage` true exactly when `page > 1`. -/
theorem getAllPosts_pagination (regexTest : JSString → JSString → Bool)
    (sortPosts : JSString → Int → List Post → List Post) (store : PostStore)
    (query : ListQuery) (page limit : Int)
    (hpage : query.page = some page) (hlimit : query.limit = some limit)
    (hp : 1 ≤ page) (hl : 1 ≤ limit) :
    ∃ posts pg,
      getAllPosts regexTest sortPosts store query = (⟨200, .posts posts pg⟩, store) ∧
      pg.currentPage = page ∧
      pg.totalPosts = (store.filter (matchesFilter regexTest query)).length ∧
      (∀ p ∈ store.filter (matchesFilter regexTest query), p ∈ store ∧ p.isPublished = true) ∧
      pg.totalPages = Int.ceil ((pg.totalPosts : ℚ) / (limit : ℚ)) ∧
      (∀ k : Int, pg.totalPages ≤ k ↔ (pg.totalPosts : Int) ≤ k * limit) ∧
      pg.totalPages = ((pg.totalPosts : Int) + limit - 1) / limit ∧
      (pg.hasNextPage = true ↔ page < pg.totalPages) ∧
      (pg.hasPrevPage = true ↔ page > 1) := by
  have hrun : getAllPosts regexTest sortPosts store query =
      (⟨200, .posts
        (((sortPosts (orElseStored query.sortBy (ofString "createdAt"))
          (if query.order = some (ofString "asc") then 1 else -1)
          (store.filter (matchesFilter regexTest query))).drop ((page - 1) * limit).toNat).take
            limit.toNat)
        (paginate page limit (store.filter (matchesFilter regexTest query)).length)⟩, store) := by
    unfold getAllPosts
    simp only [hpage, hlimit, parsedOr_of_pos hp, parsedOr_of_pos hl]
  refine ⟨_, _, hrun, rfl, rfl, ?_, rfl, ?_, ?_, ?_, ?_⟩
  · intro p hmem
    rw [List.mem_filter] at hmem
    refine ⟨hmem.1, ?_⟩
    have h := hmem.2
    unfold matchesFilter at h
    simp only [Bool.and_eq_true] at h
    exact h.1.1
  · intro k
    exact ceil_div_le_iff _ hl k
  · exact ceil_div_eq _ hl
  · simp [paginate]
  · simp [paginate]

theorem getAllPosts_pagination_witness :
    (pageTwoQuery.page = some 2 ∧ pageTwoQuery.limit = some 1 ∧ (1 : Int) ≤ 2 ∧ (1 : Int) ≤ 1) ∧
    ∃ posts pg,
      getAllPosts (fun _ _ => true) (fun _ _ found => found) twoPosts pageTwoQuery =
        (⟨200, .posts posts pg⟩, twoPosts) ∧
      pg.currentPage = 2 ∧
      pg.totalPosts =
        (twoPosts.filter (matchesFilter (fun _ _ => true) pageTwoQuery)).length ∧
      (∀ p ∈ twoPosts.filter (matchesFilter (fun _ _ => true) pageTwoQuery),
        p ∈ twoPosts ∧ p.isPublished = true) ∧
      pg.totalPages = Int.ceil ((pg.totalPosts : ℚ) / ((1 : Int) : ℚ)) ∧
      (∀ k : Int, pg.totalPages ≤ k ↔ (pg.totalPosts : Int) ≤ k * 1) ∧
      pg.totalPages = ((pg.totalPosts : Int) + 1 - 1) / 1 ∧
      (pg.hasNextPage = true ↔ (2 : Int) < pg.totalPages) ∧
      (pg.hasPrevPage = true ↔ (2 : Int) > 1) :=
  ⟨⟨by decide, by decide, by decide, by decide⟩,
   getAllPosts_pagination (fun _ _ => true) (fun _ _ found => found) twoPosts pageTwoQuery 2 1
     (by decide) (by decide) (by decide) (by decide)⟩

/-! ## Ownership -/

theorem findById_deleteOne (store : PostStore) (post : Post) :
    findById (deleteOne store post) post._id = none := by
  unfold findById deleteOne
  simp

/-- C9: in `updatePost`, `deletePost` and `deleteComment` an absent target is answered 404
with the store unchanged; an existing target whose owner (`post.author`, `comment.user`)
is not the caller is answered 403 "Forbidden" with the store unchanged, for every role of
the caller; so a store that changed was changed by the owner, and the owner's `deletePost`
is answered 200 and removes the post. -/
theorem owner_only_mutations (toLowerCase : JSString → JSString) (posts : PostStore)
    (comments : CommentStore) (callerId : Nat) (role : Role) (id : Nat) (body : PostBody) :
    (findById posts id = none →
      updatePost toLowerCase posts ⟨callerId, role⟩ id body =
        (⟨404, .message "Post not found"⟩, posts) ∧
      deletePost posts ⟨callerId, role⟩ id = (⟨404, .message "Post not found"⟩, posts)) ∧
    (findCommentById comments id = none →
      deleteComment comments ⟨callerId, role⟩ id =
        (⟨404, .message "Comment not found"⟩, comments)) ∧
    (∀ post, findById posts id = some post → post.author ≠ callerId →
      updatePost toLowerCase posts ⟨callerId, role⟩ id body =
        (⟨403, .message "Forbidden"⟩, posts) ∧
      deletePost posts ⟨callerId, role⟩ id = (⟨403, .message "Forbidden"⟩, posts)) ∧
    (∀ comment, findCommentById comments id = some comment → comment.user ≠ callerId →
      deleteComment comments ⟨callerId, role⟩ id = (⟨403, .message "Forbidden"⟩, comments)) ∧
    ((updatePost toLowerCase posts ⟨callerId, role⟩ id body).2 ≠ posts →
      ∃ post, findById posts id = some post ∧ post.author = callerId) ∧
    ((deletePost posts ⟨callerId, role⟩ id).2 ≠ posts →
      ∃ post, findById posts id = some post ∧ post.author = callerId) ∧
    ((deleteComment comments ⟨callerId, role⟩ id).2 ≠ comments →
      ∃ comment, findCommentById comments id = some comment ∧ comment.user = callerId) ∧
    (∀ post, findById posts id = some post → post.author = callerId →
      (deletePost posts ⟨callerId, role⟩ id).1.status = 200 ∧
      findById (deletePost posts ⟨callerId, role⟩ id).2 id = none) := by
  refine ⟨?_, ?_, ?_, ?_, ?_, ?_, ?_, ?_⟩
  · intro h
    simp [updatePost, deletePost, h]
  · intro h
    simp [deleteComment, h]
  · intro post h hne
    simp [updatePost, deletePost, h, hne]
  · intro comment h hne
    simp [deleteComment, h, hne]
  · intro hchanged
    cases h : findById posts id with
    | none => simp [updatePost, h] at hchanged
    | some post =>
      refine ⟨post, rfl, ?_⟩
      by_contra hne
      simp [updatePost, h, hne] at hchanged
  · intro hchanged
    cases h : findById posts id with
    | none => simp [deletePost, h] at hchanged
    | some post =>
      refine ⟨post, rfl, ?_⟩
      by_contra hne
      simp [deletePost, h, hne] at hchanged
  · intro hchanged
    cases h : findCommentById comments id with
    | none => simp [deleteComment, h] at hchanged
    | some comment =>
      refine ⟨comment, rfl, ?_⟩
      by_contra hne
      simp [deleteComment, h, hne] at hchanged
  · intro post h hown
    have hid := findById_id h
    have hdel := findById_deleteOne posts post
    rw [hid] at hdel
    simp [deletePost, h, hown, hdel]

/-! ## Updating posts -/

/-- C10, as stated, fails: the owner of post 1 sends `content: ""` and `coverImage: ""`;
the update succeeds with status 200 and the stored content is still "text", not the
empty string that was supplied. -/
theorem updatePost_keeps_content_on_empty :
    emptyContentBody.content = some [] ∧
    findById twoPosts 1 = some dislikedPost ∧ dislikedPost.author = author3._id ∧
    (updatePost asciiToLowerCase twoPosts author3 1 emptyContentBody).1.status = 200 ∧
    (findById (updatePost asciiToLowerCase twoPosts author3 1 emptyContentBody).2 1).map
      (fun p => p.content) = some (ofString "text") ∧
    ofString "text" ≠ [] := by
  decide

theorem updatePost_owner (toLowerCase : JSString → JSString) {store : PostStore}
    {user : AuthUser} {id : Nat} (body : PostBody) {post : Post}
    (hfound : findById store id = some post) (hown : post.author = user._id) :
    updatePost toLowerCase store user id body =
      (⟨200, .post (applyUpdate toLowerCase post body)⟩,
        save store (applyUpdate toLowerCase post body)) := by
  unfold updatePost
  simp [hfound, hown]

theorem applyUpdate_id (toLowerCase : JSString → JSString) (post : Post) (body : PostBody) :
    (applyUpdate toLowerCase post body)._id = post._id := by
  unfold applyUpdate
  simp only
  split <;> rfl

/-- C10, amended: in a successful `updatePost` (the post exists and the caller owns it) the
saved document takes `title` from the request when it is present and not blank, and then
`slug` is `generateSlug title`; it takes `content` and `coverImage` when present and not
the empty string; it takes `tags` and `isPublished` whenever present, an empty list and
`false` included; a field that is absent keeps its stored value, and so do a blank title
and an empty `content` or `coverImage`. -/
theorem updatePost_fields (toLowerCase : JSString → JSString) (store : PostStore)
    (user : AuthUser) (id : Nat) (body : PostBody) (post : Post)
    (hfound : findById store id = some post) (hown : post.author = user._id) :
    ∃ saved,
      updatePost toLowerCase store user id body = (⟨200, .post saved⟩, save store saved) ∧
      findById (updatePost toLowerCase store user id body).2 id = some saved ∧
      (∀ t, body.title = some t → trim t ≠ [] →
        saved.title = t ∧ saved.slug = generateSlug toLowerCase t) ∧
      (∀ t, body.title = some t → trim t = [] →
        saved.title = post.title ∧ saved.slug = post.slug) ∧
      (body.title = none → saved.title = post.title ∧ saved.slug = post.slug) ∧
      (∀ c, body.content = some c → c ≠ [] → saved.content = c) ∧
      (body.content = some [] → saved.content = post.content) ∧
      (body.content = none → saved.content = post.content) ∧
      (∀ c, body.coverImage = some c → c ≠ [] → saved.coverImage = c) ∧
      (body.coverImage = some [] → saved.coverImage = post.coverImage) ∧
      (body.coverImage = none → saved.coverImage = post.coverImage) ∧
      (∀ ts, body.tags = some ts → saved.tags = ts) ∧
      (body.tags = none → saved.tags = post.tags) ∧
      (∀ b, body.isPublished = some b → saved.isPublished = b) ∧
      (body.isPublished = none → saved.isPublished = post.isPublished) := by
  have hid := findById_id hfound
  have hrun := updatePost_owner toLowerCase body hfound hown
  refine ⟨applyUpdate toLowerCase post body, hrun, ?_, ?_, ?_, ?_, ?_, ?_, ?_, ?_, ?_, ?_, ?_,
    ?_, ?_, ?_⟩
  · rw [hrun]
    exact findById_save hfound (by rw [applyUpdate_id, hid])
  · intro t ht hne
    have hne' := ne_nil_of_trim_ne_nil hne
    simp [applyUpdate, ht, truthy, List.isEmpty_iff, hne, hne']
  · intro t ht he
    simp [applyUpdate, ht, truthy, List.isEmpty_iff, he]
  · intro ht
    simp [applyUpdate, ht, truthy]
  · intro c hc hne
    unfold applyUpdate
    simp only [hc, orElseStored, List.isEmpty_iff, hne, if_false]
  · intro hc
    unfold applyUpdate
    simp only [hc, orElseStored, List.isEmpty_nil, if_true]
    split <;> rfl
  · intro hc
    unfold applyUpdate
    simp only [hc, orElseStored]
    split <;> rfl
  · intro c hc hne
    unfold applyUpdate
    simp only [hc, orElseStored, List.isEmpty_iff, hne, if_false]
  · intro hc
    unfold applyUpdate
    simp only [hc, orElseStored, List.isEmpty_nil, if_true]
    split <;> rfl
  · intro hc
    unfold applyUpdate
    simp only [hc, orElseStored]
    split <;> rfl
  · intro ts hts
    unfold applyUpdate
    simp only [hts, Option.getD_some]
  · intro hts
    unfold applyUpdate
    simp only [hts, Option.getD_none]
    split <;> rfl
  · intro b hb
    unfold applyUpdate
    simp only [hb, Option.getD_some]
  · intro hb
    unfold applyUpdate
    simp only [hb, Option.getD_none]
    split <;> rfl

theorem updatePost_fields_witness :
    (findById twoPosts 1 = some dislikedPost ∧ dislikedPost.author = author3._id) ∧
    ∃ saved,
      updatePost asciiToLowerCase twoPosts author3 1 emptyContentBody =
        (⟨200, .post saved⟩, save twoPosts saved) ∧
      findById (updatePost asciiToLowerCase twoPosts author3 1 emptyContentBody).2 1 =
        some saved ∧
      (∀ t, emptyContentBody.title = some t → trim t ≠ [] →
        saved.title = t ∧ saved.slug = generateSlug asciiToLowerCase t) ∧
      (∀ t, emptyContentBody.title = some t → trim t = [] →
        saved.title = dislikedPost.title ∧ saved.slug = dislikedPost.slug) ∧
      (emptyContentBody.title = none →
        saved.title = dislikedPost.title ∧ saved.slug = dislikedPost.slug) ∧
      (∀ c, emptyContentBody.content = some c → c ≠ [] → saved.content = c) ∧
      (emptyContentBody.content = some [] → saved.content = dislikedPost.content) ∧
      (emptyContentBody.content = none → saved.content = dislikedPost.content) ∧
      (∀ c, emptyContentBody.coverImage = some c → c ≠ [] → saved.coverImage = c) ∧
      (emptyContentBody.coverImage = some [] → saved.coverImage = dislikedPost.coverImage) ∧
      (emptyContentBody.coverImage = none → saved.coverImage = dislikedPost.coverImage) ∧
      (∀ ts, emptyContentBody.tags = some ts → saved.tags = ts) ∧
      (emptyContentBody.tags = none → saved.tags = dislikedPost.tags) ∧
      (∀ b, emptyContentBody.isPublished = some b → saved.isPublished = b) ∧
      (emptyContentBody.isPublished = none →
        saved.isPublished = dislikedPost.isPublished) :=
  ⟨⟨by decide, by decide⟩,
   updatePost_fields asciiToLowerCase twoPosts author3 1 emptyContentBody dislikedPost
     (by decide) (by decide)⟩

/-! ## Login -/

theorem truthy_some {s : JSString} (h : s ≠ []) : truthy (some s) = true := by
  simp [truthy, List.isEmpty_iff, h]

/-- C11: for a login request with non-empty email and password, the response when no user
has the email and the response when a user has the email but the password does not verify
are the same response: status 400 with body `{message: "Invalid credentials"}`. -/
theorem login_same_failure (bcryptCompare : JSString → JSString → Bool)
    (generateToken : Nat → JSString) (unknownStore knownStore : UserStore)
    (email password : JSString) (user : User)
    (hemail : email ≠ []) (hpassword : password ≠ [])
    (hunknown : findOneByEmail unknownStore email = none)
    (hknown : findOneByEmail knownStore email = some user)
    (hwrong : bcryptCompare password user.password = false) :
    login bcryptCompare generateToken unknownStore ⟨some email, some password⟩ =
      ⟨400, .message "Invalid credentials"⟩ ∧
    login bcryptCompare generateToken knownStore ⟨some email, some password⟩ =
      ⟨400, .message "Invalid credentials"⟩ ∧
    login bcryptCompare generateToken unknownStore ⟨some email, some password⟩ =
      login bcryptCompare generateToken knownStore ⟨some email, some password⟩ := by
  have h1 : login bcryptCompare generateToken unknownStore ⟨some email, some password⟩ =
      ⟨400, .message "Invalid credentials"⟩ := by
    simp [login, truthy_some hemail, truthy_some hpassword, hunknown]
  have h2 : login bcryptCompare generateToken knownStore ⟨some email, some password⟩ =
      ⟨400, .message "Invalid credentials"⟩ := by
    simp [login, truthy_some hemail, truthy_some hpassword, hknown, hwrong]
  exact ⟨h1, h2, h1.trans h2.symm⟩

theorem login_same_failure_witness :
    (ofString "ann@example.com" ≠ [] ∧ ofString "wrong" ≠ [] ∧
      findOneByEmail [] (ofString "ann@example.com") = none ∧
      findOneByEmail [storedUser] (ofString "ann@example.com") = some storedUser ∧
      sampleCompare (ofString "wrong") storedUser.password = false) ∧
    (login sampleCompare sampleToken []
        ⟨some (ofString "ann@example.com"), some (ofString "wrong")⟩ =
      ⟨400, .message "Invalid credentials"⟩ ∧
    login sampleCompare sampleToken [storedUser]
        ⟨some (ofString "ann@example.com"), some (ofString "wrong")⟩ =
      ⟨400, .message "Invalid credentials"⟩ ∧
    login sampleCompare sampleToken []
        ⟨some (ofString "ann@example.com"), some (ofString "wrong")⟩ =
      login sampleCompare sampleToken [storedUser]
        ⟨some (ofString "ann@example.com"), some (ofString "wrong")⟩) :=
  ⟨⟨by decide, by decide, by decide, by decide, by decide⟩,
   login_same_failure sampleCompare sampleToken [] [storedUser] (ofString "ann@example.com")
     (ofString "wrong") storedUser (by decide) (by decide) (by decide) (by decide)
     (by decide)⟩

/-! ## Profile update -/

theorem findUserById_id {store : UserStore} {id : Nat} {user : User}
    (h : findUserById store id = some user) : user._id = id := by
  have := List.find?_some h
  simpa using this

theorem findUserById_saveUser {store : UserStore} {id : Nat} {user saved : User}
    (h : findUserById store id = some user) (hid : saved._id = id) :
    findUserById (saveUser store saved) id = some saved := by
  unfold findUserById saveUser at *
  induction store with
  | nil => simp at h
  | cons q qs ih =>
    by_cases hq : q._id = id
    · simp [List.find?, hq, hid]
    · have hq1 : (q._id == id) = false := by simpa using hq
      have hq2 : (q._id == saved._id) = false := by simpa [hid] using hq
      rw [List.find?_cons, hq1] at h
      simp only [List.map_cons, hq2, List.find?_cons, Bool.false_eq_true, if_false, hq1]
      exact ih h

theorem applyProfile_id (user : User) (body : ProfileBody) :
    (applyProfile user body)._id = user._id := by
  unfold applyProfile
  simp only
  split <;> split <;> split <;> rfl

theorem applyProfile_password (user : User) (body : ProfileBody) :
    (applyProfile user body).password = user.password := by
  unfold applyProfile
  simp only
  split <;> split <;> split <;> rfl

/-- C12, as stated, fails: with a name, a bio, a current password that does not verify and
the empty string as new password, `updateProfile` skips the password block
(`currentPassword && newPassword` is falsy), answers 200 and saves the new name and bio;
the claim has it fail with nothing saved. -/
theorem updateProfile_empty_new_password_saves :
    emptyNewPasswordBody.currentPassword = some (ofString "guess") ∧
    emptyNewPasswordBody.newPassword = some [] ∧
    sampleCompare (ofString "guess") storedUser.password = false ∧
    findUserById [storedUser] reader7._id = some storedUser ∧
    storedUser.name = ofString "Ann" ∧
    (updateProfile sampleCompare sampleHash [storedUser] reader7 emptyNewPasswordBody).1.status =
      200 ∧
    (findUserById
        (updateProfile sampleCompare sampleHash [storedUser] reader7 emptyNewPasswordBody).2
        reader7._id).map (fun u => (u.name, u.bio, u.password)) =
      some (ofString "Anna", ofString "hi", ofString "hash:secret") := by
  decide

/-- C12, amended: in `updateProfile` with `currentPassword` and `newPassword` both supplied
as strings that are not empty (the test `currentPassword && newPassword`): when
`currentPassword` does not
verify against the stored hash the answer is 400 "Current password is incorrect", whatever
the length of `newPassword`; otherwise, when `newPassword` has fewer than 6 code units, the
answer is 400 "New password must be at least 6 characters"; in both cases the user store,
so the stored name, avatar and bio, is unchanged; otherwise the answer is 200 and the
stored hash is the hash of `newPassword`. -/
theorem updateProfile_password (bcryptCompare : JSString → JSString → Bool)
    (bcryptHash : JSString → JSString) (store : UserStore) (reqUser : AuthUser)
    (body : ProfileBody) (user : User) (current new : JSString)
    (hfound : findUserById store reqUser._id = some user)
    (hcurrent : body.currentPassword = some current) (hnew : body.newPassword = some new)
    (hc : current ≠ []) (hn : new ≠ []) :
    (bcryptCompare current user.password = false →
      updateProfile bcryptCompare bcryptHash store reqUser body =
        (⟨400, .message "Current password is incorrect"⟩, store)) ∧
    (bcryptCompare current user.password = true → new.length < 6 →
      updateProfile bcryptCompare bcryptHash store reqUser body =
        (⟨400, .message "New password must be at least 6 characters"⟩, store)) ∧
    (bcryptCompare current user.password = true → 6 ≤ new.length →
      (updateProfile bcryptCompare bcryptHash store reqUser body).1.status = 200 ∧
      ∃ saved,
        findUserById (updateProfile bcryptCompare bcryptHash store reqUser body).2
          reqUser._id = some saved ∧
        saved.password = bcryptHash new) := by
  have hid := findUserById_id hfound
  refine ⟨?_, ?_, ?_⟩
  · intro hfalse
    simp [updateProfile, hfound, hcurrent, hnew, truthy_some hc, truthy_some hn,
      applyProfile_password, hfalse]
  · intro htrue hshort
    simp [updateProfile, hfound, hcurrent, hnew, truthy_some hc, truthy_some hn,
      applyProfile_password, htrue, hshort]
  · intro htrue hlong
    have hrun : updateProfile bcryptCompare bcryptHash store reqUser body =
        (⟨200, profileBody { applyProfile user body with password := bcryptHash new }⟩,
          saveUser store { applyProfile user body with password := bcryptHash new }) := by
      have hnot : ¬ new.length < 6 := by omega
      simp [updateProfile, hfound, hcurrent, hnew, truthy_some hc, truthy_some hn,
        applyProfile_password, htrue, hnot]
    rw [hrun]
    refine ⟨rfl, _, findUserById_saveUser hfound ?_, rfl⟩
    show (applyProfile user body)._id = reqUser._id
    rw [applyProfile_id, hid]

theorem updateProfile_password_witness :
    (findUserById [storedUser] reader7._id = some storedUser ∧
      rotateBody.currentPassword = some (ofString "secret") ∧
      rotateBody.newPassword = some (ofString "longer-secret") ∧
      ofString "secret" ≠ [] ∧ ofString "longer-secret" ≠ []) ∧
    ((sampleCompare (ofString "secret") storedUser.password = false →
      updateProfile sampleCompare sampleHash [storedUser] reader7 rotateBody =
        (⟨400, .message "Current password is incorrect"⟩, [storedUser])) ∧
    (sampleCompare (ofString "secret") storedUser.password = true →
        (ofString "longer-secret").length < 6 →
      updateProfile sampleCompare sampleHash [storedUser] reader7 rotateBody =
        (⟨400, .message "New password must be at least 6 characters"⟩, [storedUser])) ∧
    (sampleCompare (ofString "secret") storedUser.password = true →
        6 ≤ (ofString "longer-secret").length →
      (updateProfile sampleCompare sampleHash [storedUser] reader7 rotateBody).1.status = 200 ∧
      ∃ saved,
        findUserById (updateProfile sampleCompare sampleHash [storedUser] reader7 rotateBody).2
          reader7._id = some saved ∧
        saved.password = sampleHash (ofString "longer-secret"))) :=
  ⟨⟨by decide, by decide, by decide, by decide, by decide⟩,
   updateProfile_password sampleCompare sampleHash [storedUser] reader7 rotateBody storedUser
     (ofString "secret") (ofString "longer-secret") (by decide) (by decide) (by decide)
     (by decide) (by decide)⟩

theorem updateProfile_wrong_password_saves_nothing :
    updateProfile sampleCompare sampleHash [storedUser] reader7
        { rotateBody with currentPassword := some (ofString "guess"),
                          newPassword := some (ofString "abc") } =
      (⟨400, .message "Current password is incorrect"⟩, [storedUser]) := by
  decide

/-! ## Image upload -/

theorem uploadImage_success_removes (cloudinaryUpload : JSString → Outcome JSString)
    (files : FileSystem) (path secureUrl : JSString)
    (hstaged : path ∈ files) (hok : cloudinaryUpload path = .returned secureUrl) :
    (uploadImage cloudinaryUpload files path).1 = .returned ⟨200, secureUrl⟩ ∧
    path ∉ (uploadImage cloudinaryUpload files path).2 := by
  have hc : files.contains path = true := by simpa using hstaged
  unfold uploadImage unlinkSync
  rw [hok]
  rw [if_pos hc]
  exact ⟨rfl, by simp⟩

theorem uploadImage_failure_keeps (cloudinaryUpload : JSString → Outcome JSString)
    (files : FileSystem) (path : JSString) (error : String)
    (hfail : cloudinaryUpload path = .threw error) :
    uploadImage cloudinaryUpload files path = (.threw error, files) := by
  simp [uploadImage, hfail]

/-- C13 fails when the upload throws: the staged file exists, the image host's upload
throws, the handler ends with that exception and the staged file still exists.
`fs.unlinkSync` is reached only after a successful upload
(`uploadImage_success_removes`). -/
theorem uploadImage_leaves_file_on_failure :
    stagedPath ∈ [stagedPath] ∧
    uploadImage failingUpload [stagedPath] stagedPath = (.threw "upload failed", [stagedPath]) ∧
    stagedPath ∈ (uploadImage failingUpload [stagedPath] stagedPath).2 ∧
    stagedPath ∉ (uploadImage workingUpload [stagedPath] stagedPath).2 := by
  decide

/-! ## Re-deriving a slug -/

theorem isTrimmed_of_isSlugUnit {c : Nat} (h : isSlugUnit c) : isTrimmed c = false := by
  unfold isSlugUnit at h
  unfold isTrimmed
  simp only [Bool.or_eq_false_iff, Bool.and_eq_false_iff, beq_eq_false_iff_ne, ne_eq,
    decide_eq_false_iff_not]
  omega

theorem isLowerAlnum_or_hyphen {c : Nat} (h : isSlugUnit c) :
    isLowerAlnum c = true ∨ c = hyphen := by
  unfold isSlugUnit at h
  unfold isLowerAlnum hyphen
  simp only [Bool.or_eq_true, Bool.and_eq_true, decide_eq_true_eq]
  omega

theorem dropWhile_eq_self_of_head {p : Nat → Bool} {s : JSString}
    (h : ∀ c, s.head? = some c → p c = false) : s.dropWhile p = s := by
  cases s with
  | nil => rfl
  | cons a as => simp [List.dropWhile, h a rfl]

theorem rdropWhile_eq_self_of_getLast {p : Nat → Bool} {s : JSString}
    (h : ∀ c, s.getLast? = some c → p c = false) : s.rdropWhile p = s := by
  rw [List.rdropWhile_eq_self_iff]
  intro hne
  have := h _ (List.getLast?_eq_getLast _ hne)
  simp [this]

theorem trim_eq_self {s : JSString} (h : ∀ c ∈ s, isSlugUnit c) : trim s = s := by
  unfold trim
  have h1 : s.dropWhile isTrimmed = s :=
    dropWhile_eq_self_of_head (fun c hc => isTrimmed_of_isSlugUnit (h c (List.mem_of_mem_head? hc)))
  rw [h1]
  exact rdropWhile_eq_self_of_getLast
    (fun c hc => isTrimmed_of_isSlugUnit (h c (List.mem_of_getLast?_eq_some hc)))

theorem replaceRuns_eq_self (inRun : Bool) (s : JSString) (hunits : ∀ c ∈ s, isSlugUnit c)
    (hchain : NoDoubleHyphen s) (hhead : inRun = true → s.head? ≠ some hyphen) :
    replaceRuns inRun s = s := by
  unfold NoDoubleHyphen at hchain
  induction s generalizing inRun with
  | nil => rfl
  | cons a as ih =>
    have htail : ∀ c ∈ as, isSlugUnit c := fun c hc => hunits c (List.mem_cons_of_mem _ hc)
    have hchain' := (List.chain'_cons'.mp hchain).2
    unfold replaceRuns
    rcases isLowerAlnum_or_hyphen (hunits a (List.mem_cons_self _ _)) with ha | ha
    · rw [if_pos ha, ih false htail hchain' (fun h => absurd h (by decide))]
    · have hna : ¬ isLowerAlnum a = true := by
        rw [ha]; decide
      have hrun : inRun = false := by
        cases inRun with
        | false => rfl
        | true => exact absurd (by rw [ha]; rfl) (hhead rfl)
      rw [if_neg hna, hrun]
      simp only [Bool.false_eq_true, if_false]
      rw [ih true htail hchain' ?_, ha]
      intro _ hh
      exact (List.chain'_cons'.mp hchain).1 _ hh ⟨ha, rfl⟩

theorem stripHyphens_eq_self {s : JSString} (hhead : s.head? ≠ some hyphen)
    (hlast : s.getLast? ≠ some hyphen) : stripHyphens s = s := by
  unfold stripHyphens
  have h1 : s.dropWhile (· == hyphen) = s :=
    dropWhile_eq_self_of_head (fun c hc => by
      have : c ≠ hyphen := fun e => hhead (e ▸ hc)
      simpa using this)
  rw [h1]
  exact rdropWhile_eq_self_of_getLast (fun c hc => by
    have : c ≠ hyphen := fun e => hlast (e ▸ hc)
    simpa using this)

theorem generateSlug_units (toLowerCase : JSString → JSString) (title : JSString) :
    ∀ c ∈ generateSlug toLowerCase title, isSlugUnit c :=
  fun c hc => replaceRuns_units false _ c ((stripHyphens_prefix_suffix _).subset hc)

theorem generateSlug_chain (toLowerCase : JSString → JSString) (title : JSString) :
    NoDoubleHyphen (generateSlug toLowerCase title) :=
  List.Chain'.infix (replaceRuns_noDoubleHyphen false _) (stripHyphens_prefix_suffix _)

theorem asciiToLowerCase_eq_self {s : JSString} (h : ∀ c ∈ s, isSlugUnit c) :
    asciiToLowerCase s = s := by
  unfold asciiToLowerCase
  conv_rhs => rw [← List.map_id s]
  apply List.map_congr_left
  intro c hc
  have := h c hc
  unfold isSlugUnit at this
  have hno : ¬ (65 ≤ c ∧ c ≤ 90) := by omega
  simp [hno]

/-- C14: for every title, deriving the slug again from the derived slug gives the same
slug, for every lower-casing function that leaves strings over `a`-`z`, `0`-`9` and `-`
as they are (as `toLowerCase` does). -/
theorem generateSlug_idempotent (toLowerCase : JSString → JSString)
    (hlower : ∀ s, (∀ c ∈ s, isSlugUnit c) → toLowerCase s = s) (title : JSString) :
    generateSlug toLowerCase (generateSlug toLowerCase title) =
      generateSlug toLowerCase title := by
  have hunits := generateSlug_units toLowerCase title
  have hchain := generateSlug_chain toLowerCase title
  have hhead : (generateSlug toLowerCase title).head? ≠ some hyphen := stripHyphens_head _
  have hlast : (generateSlug toLowerCase title).getLast? ≠ some hyphen :=
    stripHyphens_getLast _
  generalize generateSlug toLowerCase title = slug at hunits hchain hhead hlast
  unfold generateSlug
  rw [hlower slug hunits, trim_eq_self hunits,
    replaceRuns_eq_self false slug hunits hchain (fun h => absurd h (by decide)),
    stripHyphens_eq_self hhead hlast]

theorem generateSlug_idempotent_witness :
    (∀ s, (∀ c ∈ s, isSlugUnit c) → asciiToLowerCase s = s) ∧
    generateSlug asciiToLowerCase (generateSlug asciiToLowerCase (ofString "Hello, World!")) =
      generateSlug asciiToLowerCase (ofString "Hello, World!") :=
  ⟨fun _ h => asciiToLowerCase_eq_self h,
   generateSlug_idempotent asciiToLowerCase (fun _ h => asciiToLowerCase_eq_self h)
     (ofString "Hello, World!")⟩

/-! ## Reaction responses -/

theorem likePost_response {store : PostStore} {id : Nat} {post : Post} (user : AuthUser)
    (h : findById store id = some post) :
    (likePost store user id).1 =
      ⟨200, .reaction (if post.likes.contains user._id then "Like removed" else "Post liked")
        (applyLike user._id post).likes.length (applyLike user._id post).dislikes.length
        (!post.likes.contains user._id) false⟩ := by
  unfold likePost
  simp only [h]

theorem dislikePost_response {store : PostStore} {id : Nat} {post : Post} (user : AuthUser)
    (h : findById store id = some post) :
    (dislikePost store user id).1 =
      ⟨200, .reaction
        (if post.dislikes.contains user._id then "Dislike removed" else "Post disliked")
        (applyDislike user._id post).likes.length (applyDislike user._id post).dislikes.length
        false (!post.dislikes.contains user._id)⟩ := by
  unfold dislikePost
  simp only [h]

theorem applyLike_flags {u : Nat} {post : Post} (hdisj : ¬ (u ∈ post.likes ∧ u ∈ post.dislikes)) :
    ((!post.likes.contains u) = true ↔ u ∈ (applyLike u post).likes) ∧
    (false = true ↔ u ∈ (applyLike u post).dislikes) := by
  by_cases hu : u ∈ post.likes
  · obtain ⟨hl, hd⟩ := applyLike_likes_of_mem hu
    have hnd : u ∉ post.dislikes := fun h => hdisj ⟨hu, h⟩
    rw [hl, hd]
    simp [hu, hnd]
  · obtain ⟨hl, hd⟩ := applyLike_likes_of_not_mem hu
    rw [hl, hd]
    simp [hu]

theorem applyDislike_flags {u : Nat} {post : Post}
    (hdisj : ¬ (u ∈ post.likes ∧ u ∈ post.dislikes)) :
    (false = true ↔ u ∈ (applyDislike u post).likes) ∧
    ((!post.dislikes.contains u) = true ↔ u ∈ (applyDislike u post).dislikes) := by
  by_cases hu : u ∈ post.dislikes
  · obtain ⟨hd, hl⟩ := applyDislike_of_mem hu
    have hnl : u ∉ post.likes := fun h => hdisj ⟨h, hu⟩
    rw [hl, hd]
    simp [hu, hnl]
  · obtain ⟨hd, hl⟩ := applyDislike_of_not_mem hu
    rw [hl, hd]
    simp [hu]

theorem applyLike_nodup (u : Nat) (post : Post) :
    (post.likes.Nodup → (applyLike u post).likes.Nodup) ∧
    (post.dislikes.Nodup → (applyLike u post).dislikes.Nodup) := by
  by_cases hu : u ∈ post.likes
  · obtain ⟨hl, hd⟩ := applyLike_likes_of_mem hu
    rw [hl, hd]
    exact ⟨fun h => h.filter _, id⟩
  · obtain ⟨hl, hd⟩ := applyLike_likes_of_not_mem hu
    rw [hl, hd]
    refine ⟨fun h => ?_, fun h => h.filter _⟩
    rw [List.nodup_append]
    exact ⟨h, List.nodup_singleton _, by simpa using hu⟩

theorem applyDislike_nodup (u : Nat) (post : Post) :
    (post.likes.Nodup → (applyDislike u post).likes.Nodup) ∧
    (post.dislikes.Nodup → (applyDislike u post).dislikes.Nodup) := by
  by_cases hu : u ∈ post.dislikes
  · obtain ⟨hd, hl⟩ := applyDislike_of_mem hu
    rw [hl, hd]
    exact ⟨id, fun h => h.filter _⟩
  · obtain ⟨hd, hl⟩ := applyDislike_of_not_mem hu
    rw [hl, hd]
    refine ⟨fun h => h.filter _, fun h => ?_⟩
    rw [List.nodup_append]
    exact ⟨h, List.nodup_singleton _, by simpa using hu⟩

/-- C15: for an existing post in which the caller `u` is not in both reaction sets (the
mutual exclusion of the data model, which the toggles keep), the 200 body of `likePost`
and of `dislikePost` describes the saved document: `likes` and `dislikes` are the lengths
of the saved arrays (arrays without repeated ids stay without repeated ids, so these are
the sizes of the sets), `isLiked` is true exactly when `u` is in the saved likes, and
`isDisliked` is true exactly when `u` is in the saved dislikes. -/
theorem reaction_response_describes_saved (store : PostStore) (user : AuthUser) (id : Nat)
    (post : Post) (hfound : findById store id = some post)
    (hdisj : ¬ (user._id ∈ post.likes ∧ user._id ∈ post.dislikes)) :
    (∃ saved text likes dislikes isLiked isDisliked,
      (likePost store user id).1 = ⟨200, .reaction text likes dislikes isLiked isDisliked⟩ ∧
      findById (likePost store user id).2 id = some saved ∧
      likes = saved.likes.length ∧ dislikes = saved.dislikes.length ∧
      (isLiked = true ↔ user._id ∈ saved.likes) ∧
      (isDisliked = true ↔ user._id ∈ saved.dislikes) ∧
      (post.likes.Nodup → saved.likes.Nodup) ∧
      (post.dislikes.Nodup → saved.dislikes.Nodup)) ∧
    (∃ saved text likes dislikes isLiked isDisliked,
      (dislikePost store user id).1 = ⟨200, .reaction text likes dislikes isLiked isDisliked⟩ ∧
      findById (dislikePost store user id).2 id = some saved ∧
      likes = saved.likes.length ∧ dislikes = saved.dislikes.length ∧
      (isLiked = true ↔ user._id ∈ saved.likes) ∧
      (isDisliked = true ↔ user._id ∈ saved.dislikes) ∧
      (post.likes.Nodup → saved.likes.Nodup) ∧
      (post.dislikes.Nodup → saved.dislikes.Nodup)) := by
  constructor
  · exact ⟨applyLike user._id post, _, _, _, _, _, likePost_response user hfound,
      likePost_saved user hfound, rfl, rfl, (applyLike_flags hdisj).1,
      (applyLike_flags hdisj).2, (applyLike_nodup _ _).1, (applyLike_nodup _ _).2⟩
  · exact ⟨applyDislike user._id post, _, _, _, _, _, dislikePost_response user hfound,
      dislikePost_saved user hfound, rfl, rfl, (applyDislike_flags hdisj).1,
      (applyDislike_flags hdisj).2, (applyDislike_nodup _ _).1, (applyDislike_nodup _ _).2⟩

theorem reaction_response_describes_saved_witness :
    (findById twoPosts 2 = some likedPost ∧
      ¬ (reader7._id ∈ likedPost.likes ∧ reader7._id ∈ likedPost.dislikes)) ∧
    ((∃ saved text likes dislikes isLiked isDisliked,
      (likePost twoPosts reader7 2).1 =
        ⟨200, .reaction text likes dislikes isLiked isDisliked⟩ ∧
      findById (likePost twoPosts reader7 2).2 2 = some saved ∧
      likes = saved.likes.length ∧ dislikes = saved.dislikes.length ∧
      (isLiked = true ↔ reader7._id ∈ saved.likes) ∧
      (isDisliked = true ↔ reader7._id ∈ saved.dislikes) ∧
      (likedPost.likes.Nodup → saved.likes.Nodup) ∧
      (likedPost.dislikes.Nodup → saved.dislikes.Nodup)) ∧
    (∃ saved text likes dislikes isLiked isDisliked,
      (dislikePost twoPosts reader7 2).1 =
        ⟨200, .reaction text likes dislikes isLiked isDisliked⟩ ∧
      findById (dislikePost twoPosts reader7 2).2 2 = some saved ∧
      likes = saved.likes.length ∧ dislikes = saved.dislikes.length ∧
      (isLiked = true ↔ reader7._id ∈ saved.likes) ∧
      (isDisliked = true ↔ reader7._id ∈ saved.dislikes) ∧
      (likedPost.likes.Nodup → saved.likes.Nodup) ∧
      (likedPost.dislikes.Nodup → saved.dislikes.Nodup))) :=
  ⟨⟨by decide, by decide⟩,
   reaction_response_describes_saved twoPosts reader7 2 likedPost (by decide) (by decide)⟩

theorem likePost_on_overlapping_post :
    (likePost [overlappingPost] reader7 4).1 = ⟨200, .reaction "Like removed" 0 1 false false⟩ ∧
    (findById (likePost [overlappingPost] reader7 4).2 4).map (fun p => (p.likes, p.dislikes)) =
      some ([], [7]) := by
  decide

/-! ## Slug and title -/

theorem createPost_written (toLowerCase : JSString → JSString) (newId : Nat)
    (defaultPublished : Bool) (store : PostStore) (user : AuthUser) (body : PostBody) :
    ((createPost toLowerCase newId defaultPublished store user body).1.status = 400 ∧
      (createPost toLowerCase newId defaultPublished store user body).2 = store) ∨
    ∃ newPost title,
      createPost toLowerCase newId defaultPublished store user body =
        (⟨201, .post newPost⟩, store ++ [newPost]) ∧
      body.title = some title ∧ trim title ≠ [] ∧
      newPost.title = title ∧ newPost.slug = generateSlug toLowerCase title := by
  unfold createPost
  split
  · exact Or.inl ⟨rfl, rfl⟩
  · rename_i hblank
    simp only
    split
    · exact Or.inl ⟨rfl, rfl⟩
    · refine Or.inr ⟨_, body.title.getD [], rfl, ?_, ?_, rfl, rfl⟩
      · cases ht : body.title with
        | none => simp [ht, isBlank] at hblank
        | some t => rfl
      · cases ht : body.title with
        | none => simp [ht, isBlank] at hblank
        | some t =>
          rw [ht] at hblank
          simp only [isBlank, Bool.or_eq_true, not_or, List.isEmpty_iff] at hblank
          simpa using hblank.1.2

theorem applyUpdate_title_slug (toLowerCase : JSString → JSString) (post : Post)
    (body : PostBody) :
    (∀ t, body.title = some t → trim t ≠ [] →
      (applyUpdate toLowerCase post body).title = t ∧
      (applyUpdate toLowerCase post body).slug = generateSlug toLowerCase t) ∧
    (∀ t, body.title = some t → trim t = [] →
      (applyUpdate toLowerCase post body).title = post.title ∧
      (applyUpdate toLowerCase post body).slug = post.slug) ∧
    (body.title = none →
      (applyUpdate toLowerCase post body).title = post.title ∧
      (applyUpdate toLowerCase post body).slug = post.slug) := by
  refine ⟨?_, ?_, ?_⟩
  · intro t ht hne
    have hne' := ne_nil_of_trim_ne_nil hne
    simp [applyUpdate, ht, truthy, List.isEmpty_iff, hne, hne']
  · intro t ht he
    simp [applyUpdate, ht, truthy, List.isEmpty_iff, he]
  · intro ht
    simp [applyUpdate, ht, truthy]

theorem createPost_created (toLowerCase : JSString → JSString) (newId : Nat)
    (defaultPublished : Bool) (store : PostStore) (user : AuthUser) (body : PostBody)
    (title content : JSString)
    (htitle : body.title = some title) (hcontent : body.content = some content)
    (ht : trim title ≠ []) (hc : trim content ≠ [])
    (hfree : ∀ p ∈ store, p.slug ≠ generateSlug toLowerCase title) :
    ∃ newPost,
      createPost toLowerCase newId defaultPublished store user body =
        (⟨201, .post newPost⟩, store ++ [newPost]) ∧
      newPost.title = title ∧ newPost.slug = generateSlug toLowerCase title := by
  have hnone := findOneBySlug_eq_none.mpr hfree
  refine ⟨{ _id := newId, title := title, slug := generateSlug toLowerCase title,
            content := content, coverImage := orElseStored body.coverImage [],
            author := user._id, tags := body.tags.getD [],
            isPublished := body.isPublished.getD defaultPublished,
            views := 0, likes := [], dislikes := [] }, ?_, rfl, rfl⟩
  unfold createPost
  rw [htitle, hcontent, isBlank_some_eq_false ht, isBlank_some_eq_false hc]
  simp only [Bool.or_self, Bool.false_eq_true, if_false, Option.getD_some, hnone]

/-- C16: for every store, caller and request, `createPost` either answers 400 and leaves
the store as it was, or answers 201 and appends one post whose title is the supplied title
and whose slug is `generateSlug` of it; it does the latter whenever title and content are
not blank and no stored post has that slug. A successful `updatePost` (the post exists and
the caller owns it) with a title that is not blank saves that title together with
`generateSlug` of it, and with an absent or blank title saves the stored title and slug
unchanged; so a post with `slug = generateSlug title` is saved with
`slug = generateSlug title`. -/
theorem slug_follows_title (toLowerCase : JSString → JSString) (newId : Nat)
    (defaultPublished : Bool) (store : PostStore) (user : AuthUser)
    (createBody updateBody : PostBody) :
    (((createPost toLowerCase newId defaultPublished store user createBody).1.status = 400 ∧
        (createPost toLowerCase newId defaultPublished store user createBody).2 = store) ∨
      ∃ newPost title,
        createPost toLowerCase newId defaultPublished store user createBody =
          (⟨201, .post newPost⟩, store ++ [newPost]) ∧
        createBody.title = some title ∧
        newPost.title = title ∧ newPost.slug = generateSlug toLowerCase title ∧
        newPost.slug = generateSlug toLowerCase newPost.title) ∧
    (∀ title content, createBody.title = some title → createBody.content = some content →
      trim title ≠ [] → trim content ≠ [] →
      (∀ p ∈ store, p.slug ≠ generateSlug toLowerCase title) →
      ∃ newPost,
        createPost toLowerCase newId defaultPublished store user createBody =
          (⟨201, .post newPost⟩, store ++ [newPost]) ∧
        newPost.title = title ∧ newPost.slug = generateSlug toLowerCase title) ∧
    (∀ (id : Nat) (post : Post), findById store id = some post → post.author = user._id →
      ∃ saved,
        updatePost toLowerCase store user id updateBody =
          (⟨200, .post saved⟩, save store saved) ∧
        findById (updatePost toLowerCase store user id updateBody).2 id = some saved ∧
        (∀ t, updateBody.title = some t → trim t ≠ [] →
          saved.title = t ∧ saved.slug = generateSlug toLowerCase t) ∧
        (∀ t, updateBody.title = some t → trim t = [] →
          saved.title = post.title ∧ saved.slug = post.slug) ∧
        (updateBody.title = none → saved.title = post.title ∧ saved.slug = post.slug) ∧
        (post.slug = generateSlug toLowerCase post.title →
          saved.slug = generateSlug toLowerCase saved.title)) := by
  refine ⟨?_, ?_, ?_⟩
  · rcases createPost_written toLowerCase newId defaultPublished store user createBody with
      h | ⟨newPost, title, hrun, htitle, _, ht, hs⟩
    · exact Or.inl h
    · exact Or.inr ⟨newPost, title, hrun, htitle, ht, hs, by rw [hs, ht]⟩
  · intro title content htitle hcontent ht hc hfree
    exact createPost_created toLowerCase newId defaultPublished store user createBody title
      content htitle hcontent ht hc hfree
  · intro id post hfound hown
    have hid := findById_id hfound
    have hrun := updatePost_owner toLowerCase updateBody hfound hown
    obtain ⟨h1, h2, h3⟩ := applyUpdate_title_slug toLowerCase post updateBody
    refine ⟨applyUpdate toLowerCase post updateBody, hrun, ?_, h1, h2, h3, ?_⟩
    · rw [hrun]
      exact findById_save hfound (by rw [applyUpdate_id, hid])
    · intro hinv
      cases ht : updateBody.title with
      | none =>
        obtain ⟨ha, hb⟩ := h3 ht
        rw [ha, hb, hinv]
      | some t =>
        by_cases hblank : trim t = []
        · obtain ⟨ha, hb⟩ := h2 t ht hblank
          rw [ha, hb, hinv]
        · obtain ⟨ha, hb⟩ := h1 t ht hblank
          rw [ha, hb]

theorem slug_follows_title_witness :
    (∃ newPost,
      createPost asciiToLowerCase 9 false [] reader7 helloBody =
        (⟨201, .post newPost⟩, [] ++ [newPost]) ∧
      newPost.title = ofString "Hello, World!" ∧
      newPost.slug = generateSlug asciiToLowerCase (ofString "Hello, World!")) ∧
    (∃ saved,
      updatePost asciiToLowerCase twoPosts author3 2 helloBody =
        (⟨200, .post saved⟩, save twoPosts saved) ∧
      findById (updatePost asciiToLowerCase twoPosts author3 2 helloBody).2 2 = some saved ∧
      (∀ t, helloBody.title = some t → trim t ≠ [] →
        saved.title = t ∧ saved.slug = generateSlug asciiToLowerCase t) ∧
      (∀ t, helloBody.title = some t → trim t = [] →
        saved.title = likedPost.title ∧ saved.slug = likedPost.slug) ∧
      (helloBody.title = none → saved.title = likedPost.title ∧ saved.slug = likedPost.slug) ∧
      (likedPost.slug = generateSlug asciiToLowerCase likedPost.title →
        saved.slug = generateSlug asciiToLowerCase saved.title)) :=
  ⟨(slug_follows_title asciiToLowerCase 9 false [] reader7 helloBody helloBody).2.1
      (ofString "Hello, World!") (ofString "text") (by decide) (by decide) (by decide)
      (by decide) (by decide),
   (slug_follows_title asciiToLowerCase 9 false twoPosts author3 helloBody helloBody).2.2
      2 likedPost (by decide) (by decide)⟩

end BlogPost
